import Mathlib

/-!
Verification of the EVE display-list state-caching encoder (`EVE_CoDl.h`).

The header is embedded shallowly: every `EVE_CoDl_*` function becomes a Lean
function from a configuration and a HAL context to the updated context paired
with the list of 32-bit display-list words it emits.  The low-level word
encoder (`EVE_CoCmd_dl` together with the `COLOR_RGB`, `BEGIN`, ... packing
macros) is an external collaborator, so words are represented by an abstract
inductive type carrying the operands, one constructor per instruction.
The compile-time switches `EVE_DL_OPTIMIZE`, `EVE_DL_CACHE_SCISSOR` and
`EVE_DL_END_PRIMITIVE` become fields of a configuration record, and each
`#if` in the header becomes an `if` on that record.
-/

namespace EveCoDl

/-- `EVE_VERTEX2F_MIN` from EVE_CoDl.h. -/
def EVE_VERTEX2F_MIN : Int := -16384

/-- `EVE_VERTEX2F_MAX` from EVE_CoDl.h. -/
def EVE_VERTEX2F_MAX : Int := 16383

/-- Modelled from the spec: the primitive opcode values (`LINE_STRIP`,
`EDGE_STRIP_R/L/A/B`) come from `EVE_GpuDefs.h`, which is not among the
sources; the spec fixes the strip family to `LINE_STRIP` and the four
`EDGE_STRIP` variants.  The numeric values are the standard EVE display-list
encoding values. -/
def LINE_STRIP : Nat := 4

/-- `EDGE_STRIP_R` primitive opcode (see `LINE_STRIP`). -/
def EDGE_STRIP_R : Nat := 5

/-- `EDGE_STRIP_L` primitive opcode (see `LINE_STRIP`). -/
def EDGE_STRIP_L : Nat := 6

/-- `EDGE_STRIP_A` primitive opcode (see `LINE_STRIP`). -/
def EDGE_STRIP_A : Nat := 7

/-- `EDGE_STRIP_B` primitive opcode (see `LINE_STRIP`). -/
def EDGE_STRIP_B : Nat := 8

/-- Modelled from the spec: `EVE_DL_STATE_STACK_SIZE` is defined in
`EVE_HalDefs.h`, which is not among the sources; per the spec the context
stack capacity is a power of two mirroring the hardware 4-deep context
stack. -/
def EVE_DL_STATE_STACK_SIZE : Nat := 4

/-- `EVE_DL_STATE_STACK_MASK = EVE_DL_STATE_STACK_SIZE - 1` (see
`EVE_DL_STATE_STACK_SIZE`). -/
def EVE_DL_STATE_STACK_MASK : Nat := EVE_DL_STATE_STACK_SIZE - 1

/-- An encoded 32-bit display-list word.  The bit-exact packing is an
external collaborator (`encode(opcode, operands) -> word`); the word is
represented abstractly by its opcode and operands. -/
inductive DlWord where
  | DISPLAY : DlWord
  | VERTEX2F (x y : Int) : DlWord
  | COLOR_RGB (rgb : Nat) : DlWord
  | COLOR_A (alpha : Nat) : DlWord
  | BITMAP_HANDLE (handle : Nat) : DlWord
  | CELL (cell : Nat) : DlWord
  | BITMAP_LAYOUT_H (linestride height : Nat) : DlWord
  | BITMAP_LAYOUT (format linestride height : Nat) : DlWord
  | BITMAP_SIZE_H (width height : Nat) : DlWord
  | BITMAP_SIZE (filter wrapx wrapy width height : Nat) : DlWord
  | POINT_SIZE (size : Int) : DlWord
  | LINE_WIDTH (width : Int) : DlWord
  | BITMAP_TRANSFORM_A (v : Nat) : DlWord
  | BITMAP_TRANSFORM_A_EXT (p : Bool) (v : Nat) : DlWord
  | BITMAP_TRANSFORM_B (v : Nat) : DlWord
  | BITMAP_TRANSFORM_B_EXT (p : Bool) (v : Nat) : DlWord
  | BITMAP_TRANSFORM_C (v : Nat) : DlWord
  | BITMAP_TRANSFORM_D (v : Nat) : DlWord
  | BITMAP_TRANSFORM_D_EXT (p : Bool) (v : Nat) : DlWord
  | BITMAP_TRANSFORM_E (v : Nat) : DlWord
  | BITMAP_TRANSFORM_E_EXT (p : Bool) (v : Nat) : DlWord
  | BITMAP_TRANSFORM_F (v : Nat) : DlWord
  | SCISSOR_XY (x y : Nat) : DlWord
  | SCISSOR_SIZE (width height : Nat) : DlWord
  | BEGIN (prim : Nat) : DlWord
  | END : DlWord
  | SAVE_CONTEXT : DlWord
  | RESTORE_CONTEXT : DlWord
  | VERTEX_FORMAT (frac : Nat) : DlWord
  | PALETTE_SOURCE (addr : Nat) : DlWord
  | VERTEX2II (x y handle cell : Nat) : DlWord
  | BITMAP_SOURCE (addr : Nat) : DlWord
  | BITMAP_SOURCE2 (flash : Bool) (addr : Nat) : DlWord
  | CLEAR_COLOR_RGB (rgb : Nat) : DlWord
  | CLEAR_COLOR_A (alpha : Nat) : DlWord
  | TAG (s : Nat) : DlWord
  | ALPHA_FUNC (func ref : Nat) : DlWord
  | STENCIL_FUNC (func ref mask : Nat) : DlWord
  | BLEND_FUNC (src dst : Nat) : DlWord
  | STENCIL_OP (sfail spass : Nat) : DlWord
  | CLEAR_STENCIL (s : Nat) : DlWord
  | CLEAR_TAG (s : Nat) : DlWord
  | STENCIL_MASK (mask : Nat) : DlWord
  | TAG_MASK (mask : Bool) : DlWord
  | CALL (dest : Nat) : DlWord
  | JUMP (dest : Nat) : DlWord
  | RETURN : DlWord
  | MACRO (m : Nat) : DlWord
  | CLEAR (c s t : Bool) : DlWord
  | COLOR_MASK (r g b a : Bool) : DlWord
  | VERTEX_TRANSLATE_X (x : Int) : DlWord
  | VERTEX_TRANSLATE_Y (y : Int) : DlWord

/-- One shadow-state snapshot (`EVE_HalDlState` mirrored by `EVE_DL_STATE`):
every coprocessor rendering-state field the encoder may suppress. -/
structure DlState where
  ColorRGB : Nat
  ColorA : Nat
  Handle : Nat
  Cell : Nat
  PointSize : Int
  LineWidth : Int
  VertexFormat : Nat
  PaletteSource : Nat
  BitmapTransform : Bool
  ScissorX : Nat
  ScissorY : Nat
  ScissorWidth : Nat
  ScissorHeight : Nat
deriving DecidableEq

/-- The compile-time configuration switches of EVE_CoDl.h, modelled as
runtime flags (the spec's design note: compile-time feature toggles map to
configuration flags with identical behavior). -/
structure EVE_Config where
  EVE_DL_OPTIMIZE : Bool
  EVE_DL_CACHE_SCISSOR : Bool
  EVE_DL_END_PRIMITIVE : Bool
deriving DecidableEq

/-- The part of `EVE_HalContext` used by EVE_CoDl.h: the ring of shadow
snapshots `DlState[]` (a total function standing for the C array, accessed
at `DlStateIndex` exactly as the C does), the stack index, and the active
primitive `DlPrimitive`. -/
structure EVE_HalContext where
  DlState : Nat → DlState
  DlStateIndex : Nat
  DlPrimitive : Nat

/-- `EVE_DL_STATE`, i.e. `phost->DlState[phost->DlStateIndex]`. -/
def EVE_DL_STATE (ctx : EVE_HalContext) : DlState :=
  ctx.DlState ctx.DlStateIndex

/-- Write the active shadow snapshot (assignment through `EVE_DL_STATE`). -/
def setShadow (ctx : EVE_HalContext) (s : DlState) : EVE_HalContext :=
  { ctx with DlState := fun i => if i = ctx.DlStateIndex then s else ctx.DlState i }

/-- Result of one encoder operation: updated context and emitted words. -/
abbrev DlResult := EVE_HalContext × List DlWord

/-- Sequence two operations, concatenating their emissions. -/
def dlSeq (r : DlResult) (f : EVE_HalContext → DlResult) : DlResult :=
  ((f r.1).1, r.2 ++ (f r.1).2)

/-- `EVE_CoDl_display`. -/
def EVE_CoDl_display (_cfg : EVE_Config) (ctx : EVE_HalContext) : DlResult :=
  (ctx, [DlWord.DISPLAY])

/-- `EVE_CoDl_vertex2f`. -/
def EVE_CoDl_vertex2f (_cfg : EVE_Config) (ctx : EVE_HalContext) (x y : Int) : DlResult :=
  (ctx, [DlWord.VERTEX2F x y])

/-- `EVE_CoDl_colorRgb_ex`. -/
def EVE_CoDl_colorRgb_ex (cfg : EVE_Config) (ctx : EVE_HalContext) (c : Nat) : DlResult :=
  let rgb : Nat := c &&& 0xFFFFFF
  if cfg.EVE_DL_OPTIMIZE then
    if rgb ≠ (EVE_DL_STATE ctx).ColorRGB then
      (setShadow ctx { EVE_DL_STATE ctx with ColorRGB := rgb }, [DlWord.COLOR_RGB rgb])
    else (ctx, [])
  else (ctx, [DlWord.COLOR_RGB rgb])

/-- `EVE_CoDl_colorA`. -/
def EVE_CoDl_colorA (cfg : EVE_Config) (ctx : EVE_HalContext) (alpha : Nat) : DlResult :=
  if cfg.EVE_DL_OPTIMIZE then
    if alpha ≠ (EVE_DL_STATE ctx).ColorA then
      (setShadow ctx { EVE_DL_STATE ctx with ColorA := alpha }, [DlWord.COLOR_A alpha])
    else (ctx, [])
  else (ctx, [DlWord.COLOR_A alpha])

/-- `EVE_CoDl_bitmapHandle`. -/
def EVE_CoDl_bitmapHandle (cfg : EVE_Config) (ctx : EVE_HalContext) (handle : Nat) : DlResult :=
  if cfg.EVE_DL_OPTIMIZE then
    if handle ≠ (EVE_DL_STATE ctx).Handle then
      (setShadow ctx { EVE_DL_STATE ctx with Handle := handle }, [DlWord.BITMAP_HANDLE handle])
    else (ctx, [])
  else (ctx, [DlWord.BITMAP_HANDLE handle])

/-- `EVE_CoDl_cell`. -/
def EVE_CoDl_cell (cfg : EVE_Config) (ctx : EVE_HalContext) (cell : Nat) : DlResult :=
  if cfg.EVE_DL_OPTIMIZE then
    if cell ≠ (EVE_DL_STATE ctx).Cell then
      (setShadow ctx { EVE_DL_STATE ctx with Cell := cell }, [DlWord.CELL cell])
    else (ctx, [])
  else (ctx, [DlWord.CELL cell])

/-- `EVE_CoDl_bitmapLayout`: always a high-bits word then the base word. -/
def EVE_CoDl_bitmapLayout (_cfg : EVE_Config) (ctx : EVE_HalContext)
    (format linestride height : Nat) : DlResult :=
  (ctx, [DlWord.BITMAP_LAYOUT_H (linestride >>> 10) (height >>> 9),
         DlWord.BITMAP_LAYOUT format linestride height])

/-- `EVE_CoDl_bitmapSize`: always a high-bits word then the base word. -/
def EVE_CoDl_bitmapSize (_cfg : EVE_Config) (ctx : EVE_HalContext)
    (filter wrapx wrapy width height : Nat) : DlResult :=
  (ctx, [DlWord.BITMAP_SIZE_H (width >>> 9) (height >>> 9),
         DlWord.BITMAP_SIZE filter wrapx wrapy width height])

/-- `EVE_CoDl_pointSize`. -/
def EVE_CoDl_pointSize (cfg : EVE_Config) (ctx : EVE_HalContext) (size : Int) : DlResult :=
  if cfg.EVE_DL_OPTIMIZE then
    if size ≠ (EVE_DL_STATE ctx).PointSize then
      (setShadow ctx { EVE_DL_STATE ctx with PointSize := size }, [DlWord.POINT_SIZE size])
    else (ctx, [])
  else (ctx, [DlWord.POINT_SIZE size])

/-- `EVE_CoDl_lineWidth`. -/
def EVE_CoDl_lineWidth (cfg : EVE_Config) (ctx : EVE_HalContext) (width : Int) : DlResult :=
  if cfg.EVE_DL_OPTIMIZE then
    if width ≠ (EVE_DL_STATE ctx).LineWidth then
      (setShadow ctx { EVE_DL_STATE ctx with LineWidth := width }, [DlWord.LINE_WIDTH width])
    else (ctx, [])
  else (ctx, [DlWord.LINE_WIDTH width])

/-- `EVE_CoDl_vertexFormat`. -/
def EVE_CoDl_vertexFormat (cfg : EVE_Config) (ctx : EVE_HalContext) (frac : Nat) : DlResult :=
  if cfg.EVE_DL_OPTIMIZE then
    if frac ≠ (EVE_DL_STATE ctx).VertexFormat then
      (setShadow ctx { EVE_DL_STATE ctx with VertexFormat := frac }, [DlWord.VERTEX_FORMAT frac])
    else (ctx, [])
  else (ctx, [DlWord.VERTEX_FORMAT frac])

/-- `EVE_CoDl_paletteSource`. -/
def EVE_CoDl_paletteSource (cfg : EVE_Config) (ctx : EVE_HalContext) (addr : Nat) : DlResult :=
  if cfg.EVE_DL_OPTIMIZE then
    if addr ≠ (EVE_DL_STATE ctx).PaletteSource then
      (setShadow ctx { EVE_DL_STATE ctx with PaletteSource := addr }, [DlWord.PALETTE_SOURCE addr])
    else (ctx, [])
  else (ctx, [DlWord.PALETTE_SOURCE addr])

/-- `EVE_CoDl_bitmapTransformA` (emits, then under `EVE_DL_OPTIMIZE` marks the
transform as no longer identity). -/
def EVE_CoDl_bitmapTransformA (cfg : EVE_Config) (ctx : EVE_HalContext) (v : Nat) : DlResult :=
  (if cfg.EVE_DL_OPTIMIZE then setShadow ctx { EVE_DL_STATE ctx with BitmapTransform := true }
   else ctx, [DlWord.BITMAP_TRANSFORM_A v])

/-- `EVE_CoDl_bitmapTransformA_ex`. -/
def EVE_CoDl_bitmapTransformA_ex (cfg : EVE_Config) (ctx : EVE_HalContext)
    (p : Bool) (v : Nat) : DlResult :=
  (if cfg.EVE_DL_OPTIMIZE then setShadow ctx { EVE_DL_STATE ctx with BitmapTransform := true }
   else ctx, [DlWord.BITMAP_TRANSFORM_A_EXT p v])

/-- `EVE_CoDl_bitmapTransformB`. -/
def EVE_CoDl_bitmapTransformB (cfg : EVE_Config) (ctx : EVE_HalContext) (v : Nat) : DlResult :=
  (if cfg.EVE_DL_OPTIMIZE then setShadow ctx { EVE_DL_STATE ctx with BitmapTransform := true }
   else ctx, [DlWord.BITMAP_TRANSFORM_B v])

/-- `EVE_CoDl_bitmapTransformB_ex`. -/
def EVE_CoDl_bitmapTransformB_ex (cfg : EVE_Config) (ctx : EVE_HalContext)
    (p : Bool) (v : Nat) : DlResult :=
  (if cfg.EVE_DL_OPTIMIZE then setShadow ctx { EVE_DL_STATE ctx with BitmapTransform := true }
   else ctx, [DlWord.BITMAP_TRANSFORM_B_EXT p v])

/-- `EVE_CoDl_bitmapTransformC`. -/
def EVE_CoDl_bitmapTransformC (cfg : EVE_Config) (ctx : EVE_HalContext) (v : Nat) : DlResult :=
  (if cfg.EVE_DL_OPTIMIZE then setShadow ctx { EVE_DL_STATE ctx with BitmapTransform := true }
   else ctx, [DlWord.BITMAP_TRANSFORM_C v])

/-- `EVE_CoDl_bitmapTransformD`. -/
def EVE_CoDl_bitmapTransformD (cfg : EVE_Config) (ctx : EVE_HalContext) (v : Nat) : DlResult :=
  (if cfg.EVE_DL_OPTIMIZE then setShadow ctx { EVE_DL_STATE ctx with BitmapTransform := true }
   else ctx, [DlWord.BITMAP_TRANSFORM_D v])

/-- `EVE_CoDl_bitmapTransformD_ex`. -/
def EVE_CoDl_bitmapTransformD_ex (cfg : EVE_Config) (ctx : EVE_HalContext)
    (p : Bool) (v : Nat) : DlResult :=
  (if cfg.EVE_DL_OPTIMIZE then setShadow ctx { EVE_DL_STATE ctx with BitmapTransform := true }
   else ctx, [DlWord.BITMAP_TRANSFORM_D_EXT p v])

/-- `EVE_CoDl_bitmapTransformE`. -/
def EVE_CoDl_bitmapTransformE (cfg : EVE_Config) (ctx : EVE_HalContext) (v : Nat) : DlResult :=
  (if cfg.EVE_DL_OPTIMIZE then setShadow ctx { EVE_DL_STATE ctx with BitmapTransform := true }
   else ctx, [DlWord.BITMAP_TRANSFORM_E v])

/-- `EVE_CoDl_bitmapTransformE_ex`. -/
def EVE_CoDl_bitmapTransformE_ex (cfg : EVE_Config) (ctx : EVE_HalContext)
    (p : Bool) (v : Nat) : DlResult :=
  (if cfg.EVE_DL_OPTIMIZE then setShadow ctx { EVE_DL_STATE ctx with BitmapTransform := true }
   else ctx, [DlWord.BITMAP_TRANSFORM_E_EXT p v])

/-- `EVE_CoDl_bitmapTransformF`. -/
def EVE_CoDl_bitmapTransformF (cfg : EVE_Config) (ctx : EVE_HalContext) (v : Nat) : DlResult :=
  (if cfg.EVE_DL_OPTIMIZE then setShadow ctx { EVE_DL_STATE ctx with BitmapTransform := true }
   else ctx, [DlWord.BITMAP_TRANSFORM_F v])

/-- The six identity-valued coefficient calls of
`EVE_CoDl_bitmapTransform_identity` (always compiled; the surrounding skip
and flag reset are under `EVE_DL_OPTIMIZE`). -/
def bitmapTransformIdentityBody (cfg : EVE_Config) (ctx : EVE_HalContext) : DlResult :=
  dlSeq (EVE_CoDl_bitmapTransformA_ex cfg ctx false 256) fun c1 =>
  dlSeq (EVE_CoDl_bitmapTransformB_ex cfg c1 false 0) fun c2 =>
  dlSeq (EVE_CoDl_bitmapTransformC cfg c2 0) fun c3 =>
  dlSeq (EVE_CoDl_bitmapTransformD_ex cfg c3 false 0) fun c4 =>
  dlSeq (EVE_CoDl_bitmapTransformE_ex cfg c4 false 256) fun c5 =>
  EVE_CoDl_bitmapTransformF cfg c5 0

/-- `EVE_CoDl_bitmapTransform_identity`. -/
def EVE_CoDl_bitmapTransform_identity (cfg : EVE_Config) (ctx : EVE_HalContext) : DlResult :=
  if cfg.EVE_DL_OPTIMIZE then
    if (EVE_DL_STATE ctx).BitmapTransform then
      let r := bitmapTransformIdentityBody cfg ctx
      (setShadow r.1 { EVE_DL_STATE r.1 with BitmapTransform := false }, r.2)
    else (ctx, [])
  else bitmapTransformIdentityBody cfg ctx

/-- `EVE_CoDl_scissorXY`: the suppression test is under
`EVE_DL_OPTIMIZE && EVE_DL_CACHE_SCISSOR`; the cache update is under
`EVE_DL_CACHE_SCISSOR` alone. -/
def EVE_CoDl_scissorXY (cfg : EVE_Config) (ctx : EVE_HalContext) (x y : Nat) : DlResult :=
  if (cfg.EVE_DL_OPTIMIZE && cfg.EVE_DL_CACHE_SCISSOR) &&
      !((EVE_DL_STATE ctx).ScissorX ≠ x ∨ (EVE_DL_STATE ctx).ScissorY ≠ y) then
    (ctx, [])
  else
    (if cfg.EVE_DL_CACHE_SCISSOR then
       setShadow ctx { EVE_DL_STATE ctx with ScissorX := x, ScissorY := y }
     else ctx, [DlWord.SCISSOR_XY x y])

/-- `EVE_CoDl_scissorSize` (same shape as `EVE_CoDl_scissorXY`). -/
def EVE_CoDl_scissorSize (cfg : EVE_Config) (ctx : EVE_HalContext) (width height : Nat) : DlResult :=
  if (cfg.EVE_DL_OPTIMIZE && cfg.EVE_DL_CACHE_SCISSOR) &&
      !((EVE_DL_STATE ctx).ScissorWidth ≠ width ∨ (EVE_DL_STATE ctx).ScissorHeight ≠ height) then
    (ctx, [])
  else
    (if cfg.EVE_DL_CACHE_SCISSOR then
       setShadow ctx { EVE_DL_STATE ctx with ScissorWidth := width, ScissorHeight := height }
     else ctx, [DlWord.SCISSOR_SIZE width height])

/-- The strip-family remap of `EVE_CoDl_begin`: `LINE_STRIP` and the four
`EDGE_STRIP` variants count as `0` (no active primitive) for comparison. -/
def stripEffective (oldPrim : Nat) : Nat :=
  if oldPrim = LINE_STRIP ∨ oldPrim = EDGE_STRIP_R ∨ oldPrim = EDGE_STRIP_L ∨
      oldPrim = EDGE_STRIP_A ∨ oldPrim = EDGE_STRIP_B then 0
  else oldPrim

/-- `EVE_CoDl_begin`. -/
def EVE_CoDl_begin (cfg : EVE_Config) (ctx : EVE_HalContext) (prim : Nat) : DlResult :=
  if cfg.EVE_DL_OPTIMIZE then
    let oldPrim := stripEffective ctx.DlPrimitive
    if prim ≠ oldPrim then
      ({ ctx with DlPrimitive := prim }, [DlWord.BEGIN prim])
    else (ctx, [])
  else (ctx, [DlWord.BEGIN prim])

/-- `EVE_CoDl_end`: compiled in when
`EVE_DL_END_PRIMITIVE || !EVE_DL_OPTIMIZE`; the primitive test and reset are
under `EVE_DL_OPTIMIZE`. -/
def EVE_CoDl_end (cfg : EVE_Config) (ctx : EVE_HalContext) : DlResult :=
  if cfg.EVE_DL_END_PRIMITIVE || !cfg.EVE_DL_OPTIMIZE then
    if cfg.EVE_DL_OPTIMIZE then
      if ctx.DlPrimitive ≠ 0 then
        ({ ctx with DlPrimitive := 0 }, [DlWord.END])
      else (ctx, [])
    else (ctx, [DlWord.END])
  else (ctx, [])

/-- `EVE_CoDl_saveContext`: always emits `SAVE_CONTEXT()`; under
`EVE_DL_OPTIMIZE || EVE_DL_CACHE_SCISSOR` copies the active snapshot into
`(DlStateIndex + 1) & EVE_DL_STATE_STACK_MASK` and advances the index. -/
def EVE_CoDl_saveContext (cfg : EVE_Config) (ctx : EVE_HalContext) : DlResult :=
  if cfg.EVE_DL_OPTIMIZE || cfg.EVE_DL_CACHE_SCISSOR then
    let nextState := (ctx.DlStateIndex + 1) &&& EVE_DL_STATE_STACK_MASK
    ({ ctx with
        DlState := fun i =>
          if i = nextState then ctx.DlState ctx.DlStateIndex else ctx.DlState i,
        DlStateIndex := nextState },
      [DlWord.SAVE_CONTEXT])
  else (ctx, [DlWord.SAVE_CONTEXT])

/-- `EVE_CoDl_restoreContext`: always emits `RESTORE_CONTEXT()`; under
`EVE_DL_OPTIMIZE || EVE_DL_CACHE_SCISSOR` steps the index back one slot.
The C computes `(DlStateIndex - 1) & EVE_DL_STATE_STACK_MASK` in int
arithmetic; on a two's-complement machine `(i - 1) & m` with `m = 2^k - 1`
equals `(i + m) & m` for every `i ≥ 0`, which is the form used here (the
subtraction would truncate at zero on `Nat`). -/
def EVE_CoDl_restoreContext (cfg : EVE_Config) (ctx : EVE_HalContext) : DlResult :=
  if cfg.EVE_DL_OPTIMIZE || cfg.EVE_DL_CACHE_SCISSOR then
    ({ ctx with
        DlStateIndex :=
          (ctx.DlStateIndex + EVE_DL_STATE_STACK_MASK) &&& EVE_DL_STATE_STACK_MASK },
      [DlWord.RESTORE_CONTEXT])
  else (ctx, [DlWord.RESTORE_CONTEXT])

/-- Arithmetic right shift by one on a signed value (`x >> 1` in C, which
rounds toward negative infinity). -/
def asr1 (x : Int) : Int := Int.fdiv x 2

/-- `EVE_CoDl_vertex2f_4`: 4-bit sub-precision vertex, falling back to
format 3 with halved coordinates when a coordinate exceeds
`EVE_VERTEX2F_MAX`. -/
def EVE_CoDl_vertex2f_4 (cfg : EVE_Config) (ctx : EVE_HalContext) (x y : Int) : DlResult :=
  if x > EVE_VERTEX2F_MAX ∨ y > EVE_VERTEX2F_MAX then
    dlSeq (EVE_CoDl_vertexFormat cfg ctx 3) fun c =>
      EVE_CoDl_vertex2f cfg c (asr1 x) (asr1 y)
  else
    dlSeq (EVE_CoDl_vertexFormat cfg ctx 4) fun c =>
      EVE_CoDl_vertex2f cfg c x y

/-- `EVE_CoDl_vertex2f_2`. -/
def EVE_CoDl_vertex2f_2 (cfg : EVE_Config) (ctx : EVE_HalContext) (x y : Int) : DlResult :=
  dlSeq (EVE_CoDl_vertexFormat cfg ctx 2) fun c =>
    EVE_CoDl_vertex2f cfg c x y

/-- `EVE_CoDl_vertex2f_0`. -/
def EVE_CoDl_vertex2f_0 (cfg : EVE_Config) (ctx : EVE_HalContext) (x y : Int) : DlResult :=
  dlSeq (EVE_CoDl_vertexFormat cfg ctx 0) fun c =>
    EVE_CoDl_vertex2f cfg c x y

/-- Modelled from the spec: the default shadow snapshot written by
`EVE_CoDlImpl_resetDlState`, whose implementation (EVE_CoDl.c) is not among
the sources.  The spec pins only that the bitmap transform starts as
identity (`BitmapTransform = false`); the remaining fields are
representative reset values and no claim depends on them. -/
def resetDlStateDefault : DlState :=
  { ColorRGB := 0xFFFFFF
    ColorA := 255
    Handle := 0
    Cell := 0
    PointSize := 16
    LineWidth := 16
    VertexFormat := 4
    PaletteSource := 0
    BitmapTransform := false
    ScissorX := 0
    ScissorY := 0
    ScissorWidth := 0
    ScissorHeight := 0 }

/-- Modelled from the spec: `EVE_CoDlImpl_resetDlState` is declared in
EVE_CoDl.h but implemented in EVE_CoDl.c, which is not among the sources;
per the spec it reinitializes the shadow state, the context stack and the
primitive state to defaults when a new display list begins. -/
def EVE_CoDlImpl_resetDlState (_ctx : EVE_HalContext) : EVE_HalContext :=
  { DlState := fun _ => resetDlStateDefault
    DlStateIndex := 0
    DlPrimitive := 0 }

/-- Modelled from the spec: blend factor opcodes from `EVE_GpuDefs.h` (not
among the sources), used only by `EVE_CoDl_blendFunc_default`. -/
def SRC_ALPHA : Nat := 2

/-- `ONE_MINUS_SRC_ALPHA` blend factor opcode (see `SRC_ALPHA`). -/
def ONE_MINUS_SRC_ALPHA : Nat := 4

/-- `EVE_CoDl_vertex2ii`. -/
def EVE_CoDl_vertex2ii (_cfg : EVE_Config) (ctx : EVE_HalContext)
    (x y handle cell : Nat) : DlResult :=
  (ctx, [DlWord.VERTEX2II x y handle cell])

/-- `EVE_CoDl_bitmapSource`. -/
def EVE_CoDl_bitmapSource (_cfg : EVE_Config) (ctx : EVE_HalContext) (addr : Nat) : DlResult :=
  (ctx, [DlWord.BITMAP_SOURCE addr])

/-- `EVE_CoDl_bitmapSource_ex`. -/
def EVE_CoDl_bitmapSource_ex (_cfg : EVE_Config) (ctx : EVE_HalContext)
    (addr : Nat) (flash : Bool) : DlResult :=
  (ctx, [DlWord.BITMAP_SOURCE2 flash addr])

/-- `EVE_CoDl_clearColorRgb_ex`: `CLEAR_COLOR_RGB(0,0,0) | (c & 0xFFFFFF)`. -/
def EVE_CoDl_clearColorRgb_ex (_cfg : EVE_Config) (ctx : EVE_HalContext) (c : Nat) : DlResult :=
  (ctx, [DlWord.CLEAR_COLOR_RGB (c &&& 0xFFFFFF)])

/-- `EVE_CoDl_clearColorRgb`. -/
def EVE_CoDl_clearColorRgb (_cfg : EVE_Config) (ctx : EVE_HalContext) (r g b : Nat) : DlResult :=
  (ctx, [DlWord.CLEAR_COLOR_RGB ((r <<< 16) ||| (g <<< 8) ||| b)])

/-- `EVE_CoDl_clearColorA`. -/
def EVE_CoDl_clearColorA (_cfg : EVE_Config) (ctx : EVE_HalContext) (alpha : Nat) : DlResult :=
  (ctx, [DlWord.CLEAR_COLOR_A alpha])

/-- `EVE_CoDl_clearColorArgb_ex`. -/
def EVE_CoDl_clearColorArgb_ex (cfg : EVE_Config) (ctx : EVE_HalContext) (c : Nat) : DlResult :=
  dlSeq (EVE_CoDl_clearColorRgb_ex cfg ctx c) fun c1 =>
    EVE_CoDl_clearColorA cfg c1 (c >>> 24)

/-- `EVE_CoDl_tag`. -/
def EVE_CoDl_tag (_cfg : EVE_Config) (ctx : EVE_HalContext) (s : Nat) : DlResult :=
  (ctx, [DlWord.TAG s])

/-- `EVE_CoDl_colorRgb` (wrapper packing r/g/b into `EVE_CoDl_colorRgb_ex`). -/
def EVE_CoDl_colorRgb (cfg : EVE_Config) (ctx : EVE_HalContext) (r g b : Nat) : DlResult :=
  EVE_CoDl_colorRgb_ex cfg ctx ((r <<< 16) ||| (g <<< 8) ||| b)

/-- `EVE_CoDl_colorArgb_ex`. -/
def EVE_CoDl_colorArgb_ex (cfg : EVE_Config) (ctx : EVE_HalContext) (c : Nat) : DlResult :=
  dlSeq (EVE_CoDl_colorRgb_ex cfg ctx c) fun c1 =>
    EVE_CoDl_colorA cfg c1 (c >>> 24)

/-- `EVE_CoDl_alphaFunc`. -/
def EVE_CoDl_alphaFunc (_cfg : EVE_Config) (ctx : EVE_HalContext) (func ref : Nat) : DlResult :=
  (ctx, [DlWord.ALPHA_FUNC func ref])

/-- `EVE_CoDl_stencilFunc`. -/
def EVE_CoDl_stencilFunc (_cfg : EVE_Config) (ctx : EVE_HalContext)
    (func ref mask : Nat) : DlResult :=
  (ctx, [DlWord.STENCIL_FUNC func ref mask])

/-- `EVE_CoDl_blendFunc`. -/
def EVE_CoDl_blendFunc (_cfg : EVE_Config) (ctx : EVE_HalContext) (src dst : Nat) : DlResult :=
  (ctx, [DlWord.BLEND_FUNC src dst])

/-- `EVE_CoDl_blendFunc_default`. -/
def EVE_CoDl_blendFunc_default (cfg : EVE_Config) (ctx : EVE_HalContext) : DlResult :=
  EVE_CoDl_blendFunc cfg ctx SRC_ALPHA ONE_MINUS_SRC_ALPHA

/-- `EVE_CoDl_stencilOp`. -/
def EVE_CoDl_stencilOp (_cfg : EVE_Config) (ctx : EVE_HalContext) (sfail spass : Nat) : DlResult :=
  (ctx, [DlWord.STENCIL_OP sfail spass])

/-- `EVE_CoDl_clearStencil`. -/
def EVE_CoDl_clearStencil (_cfg : EVE_Config) (ctx : EVE_HalContext) (s : Nat) : DlResult :=
  (ctx, [DlWord.CLEAR_STENCIL s])

/-- `EVE_CoDl_clearTag`. -/
def EVE_CoDl_clearTag (_cfg : EVE_Config) (ctx : EVE_HalContext) (s : Nat) : DlResult :=
  (ctx, [DlWord.CLEAR_TAG s])

/-- `EVE_CoDl_stencilMask`. -/
def EVE_CoDl_stencilMask (_cfg : EVE_Config) (ctx : EVE_HalContext) (mask : Nat) : DlResult :=
  (ctx, [DlWord.STENCIL_MASK mask])

/-- `EVE_CoDl_tagMask`. -/
def EVE_CoDl_tagMask (_cfg : EVE_Config) (ctx : EVE_HalContext) (mask : Bool) : DlResult :=
  (ctx, [DlWord.TAG_MASK mask])

/-- `EVE_CoDl_bitmapTransform_ex` (sets all six coefficients; the final
flag write is redundant with the one in each coefficient call). -/
def EVE_CoDl_bitmapTransform_ex (cfg : EVE_Config) (ctx : EVE_HalContext)
    (p : Bool) (a b : Nat) (c : Nat) (d e : Nat) (f : Nat) : DlResult :=
  let r :=
    dlSeq (EVE_CoDl_bitmapTransformA_ex cfg ctx p a) fun c1 =>
    dlSeq (EVE_CoDl_bitmapTransformB_ex cfg c1 p b) fun c2 =>
    dlSeq (EVE_CoDl_bitmapTransformC cfg c2 c) fun c3 =>
    dlSeq (EVE_CoDl_bitmapTransformD_ex cfg c3 p d) fun c4 =>
    dlSeq (EVE_CoDl_bitmapTransformE_ex cfg c4 p e) fun c5 =>
    EVE_CoDl_bitmapTransformF cfg c5 f
  (if cfg.EVE_DL_OPTIMIZE then setShadow r.1 { EVE_DL_STATE r.1 with BitmapTransform := true }
   else r.1, r.2)

/-- `EVE_CoDl_call`. -/
def EVE_CoDl_call (_cfg : EVE_Config) (ctx : EVE_HalContext) (dest : Nat) : DlResult :=
  (ctx, [DlWord.CALL dest])

/-- `EVE_CoDl_jump`. -/
def EVE_CoDl_jump (_cfg : EVE_Config) (ctx : EVE_HalContext) (dest : Nat) : DlResult :=
  (ctx, [DlWord.JUMP dest])

/-- `EVE_CoDl_colorMask`. -/
def EVE_CoDl_colorMask (_cfg : EVE_Config) (ctx : EVE_HalContext) (r g b a : Bool) : DlResult :=
  (ctx, [DlWord.COLOR_MASK r g b a])

/-- `EVE_CoDl_return`. -/
def EVE_CoDl_return (_cfg : EVE_Config) (ctx : EVE_HalContext) : DlResult :=
  (ctx, [DlWord.RETURN])

/-- `EVE_CoDl_macro`. -/
def EVE_CoDl_macro (_cfg : EVE_Config) (ctx : EVE_HalContext) (m : Nat) : DlResult :=
  (ctx, [DlWord.MACRO m])

/-- `EVE_CoDl_clear`. -/
def EVE_CoDl_clear (_cfg : EVE_Config) (ctx : EVE_HalContext) (c s t : Bool) : DlResult :=
  (ctx, [DlWord.CLEAR c s t])

/-- `EVE_CoDl_vertexTranslateX`. -/
def EVE_CoDl_vertexTranslateX (_cfg : EVE_Config) (ctx : EVE_HalContext) (x : Int) : DlResult :=
  (ctx, [DlWord.VERTEX_TRANSLATE_X x])

/-- `EVE_CoDl_vertexTranslateY`. -/
def EVE_CoDl_vertexTranslateY (_cfg : EVE_Config) (ctx : EVE_HalContext) (y : Int) : DlResult :=
  (ctx, [DlWord.VERTEX_TRANSLATE_Y y])

/-- `EVE_CoDl_nop`. -/
def EVE_CoDl_nop (_cfg : EVE_Config) (ctx : EVE_HalContext) : DlResult :=
  (ctx, [])

/-- One encoder operation (one public `EVE_CoDl_*` call with its
arguments), used to quantify over sequences of operations. -/
inductive DlOp where
  | display : DlOp
  | vertex2f (x y : Int) : DlOp
  | vertex2ii (x y handle cell : Nat) : DlOp
  | bitmapSource (addr : Nat) : DlOp
  | bitmapSource_ex (addr : Nat) (flash : Bool) : DlOp
  | clearColorRgb_ex (c : Nat) : DlOp
  | clearColorRgb (r g b : Nat) : DlOp
  | clearColorA (alpha : Nat) : DlOp
  | clearColorArgb_ex (c : Nat) : DlOp
  | tag (s : Nat) : DlOp
  | colorRgb_ex (c : Nat) : DlOp
  | colorRgb (r g b : Nat) : DlOp
  | colorA (alpha : Nat) : DlOp
  | colorArgb_ex (c : Nat) : DlOp
  | bitmapHandle (handle : Nat) : DlOp
  | cell (cell : Nat) : DlOp
  | bitmapLayout (format linestride height : Nat) : DlOp
  | bitmapSize (filter wrapx wrapy width height : Nat) : DlOp
  | alphaFunc (func ref : Nat) : DlOp
  | stencilFunc (func ref mask : Nat) : DlOp
  | blendFunc (src dst : Nat) : DlOp
  | blendFunc_default : DlOp
  | stencilOp (sfail spass : Nat) : DlOp
  | pointSize (size : Int) : DlOp
  | lineWidth (width : Int) : DlOp
  | clearStencil (s : Nat) : DlOp
  | clearTag (s : Nat) : DlOp
  | stencilMask (mask : Nat) : DlOp
  | tagMask (mask : Bool) : DlOp
  | bitmapTransformA (v : Nat) : DlOp
  | bitmapTransformA_ex (p : Bool) (v : Nat) : DlOp
  | bitmapTransformB (v : Nat) : DlOp
  | bitmapTransformB_ex (p : Bool) (v : Nat) : DlOp
  | bitmapTransformC (v : Nat) : DlOp
  | bitmapTransformD (v : Nat) : DlOp
  | bitmapTransformD_ex (p : Bool) (v : Nat) : DlOp
  | bitmapTransformE (v : Nat) : DlOp
  | bitmapTransformE_ex (p : Bool) (v : Nat) : DlOp
  | bitmapTransformF (v : Nat) : DlOp
  | bitmapTransform_ex (p : Bool) (a b : Nat) (c : Nat) (d e : Nat) (f : Nat) : DlOp
  | bitmapTransform_identity : DlOp
  | scissorXY (x y : Nat) : DlOp
  | scissorSize (width height : Nat) : DlOp
  | call (dest : Nat) : DlOp
  | jump (dest : Nat) : DlOp
  | begin (prim : Nat) : DlOp
  | colorMask (r g b a : Bool) : DlOp
  | dlEnd : DlOp
  | saveContext : DlOp
  | restoreContext : DlOp
  | dlReturn : DlOp
  | macroCmd (m : Nat) : DlOp
  | clear (c s t : Bool) : DlOp
  | vertexFormat (frac : Nat) : DlOp
  | paletteSource (addr : Nat) : DlOp
  | vertexTranslateX (x : Int) : DlOp
  | vertexTranslateY (y : Int) : DlOp
  | nop : DlOp
  | vertex2f_4 (x y : Int) : DlOp
  | vertex2f_2 (x y : Int) : DlOp
  | vertex2f_0 (x y : Int) : DlOp

/-- Dispatch one operation to its encoder function. -/
def runOp (cfg : EVE_Config) (op : DlOp) (ctx : EVE_HalContext) : DlResult :=
  match op with
  | DlOp.display => EVE_CoDl_display cfg ctx
  | DlOp.vertex2f x y => EVE_CoDl_vertex2f cfg ctx x y
  | DlOp.vertex2ii x y h c => EVE_CoDl_vertex2ii cfg ctx x y h c
  | DlOp.bitmapSource a => EVE_CoDl_bitmapSource cfg ctx a
  | DlOp.bitmapSource_ex a f => EVE_CoDl_bitmapSource_ex cfg ctx a f
  | DlOp.clearColorRgb_ex c => EVE_CoDl_clearColorRgb_ex cfg ctx c
  | DlOp.clearColorRgb r g b => EVE_CoDl_clearColorRgb cfg ctx r g b
  | DlOp.clearColorA a => EVE_CoDl_clearColorA cfg ctx a
  | DlOp.clearColorArgb_ex c => EVE_CoDl_clearColorArgb_ex cfg ctx c
  | DlOp.tag s => EVE_CoDl_tag cfg ctx s
  | DlOp.colorRgb_ex c => EVE_CoDl_colorRgb_ex cfg ctx c
  | DlOp.colorRgb r g b => EVE_CoDl_colorRgb cfg ctx r g b
  | DlOp.colorA a => EVE_CoDl_colorA cfg ctx a
  | DlOp.colorArgb_ex c => EVE_CoDl_colorArgb_ex cfg ctx c
  | DlOp.bitmapHandle h => EVE_CoDl_bitmapHandle cfg ctx h
  | DlOp.cell c => EVE_CoDl_cell cfg ctx c
  | DlOp.bitmapLayout f l h => EVE_CoDl_bitmapLayout cfg ctx f l h
  | DlOp.bitmapSize f wx wy w h => EVE_CoDl_bitmapSize cfg ctx f wx wy w h
  | DlOp.alphaFunc f r => EVE_CoDl_alphaFunc cfg ctx f r
  | DlOp.stencilFunc f r m => EVE_CoDl_stencilFunc cfg ctx f r m
  | DlOp.blendFunc s d => EVE_CoDl_blendFunc cfg ctx s d
  | DlOp.blendFunc_default => EVE_CoDl_blendFunc_default cfg ctx
  | DlOp.stencilOp sf sp => EVE_CoDl_stencilOp cfg ctx sf sp
  | DlOp.pointSize s => EVE_CoDl_pointSize cfg ctx s
  | DlOp.lineWidth w => EVE_CoDl_lineWidth cfg ctx w
  | DlOp.clearStencil s => EVE_CoDl_clearStencil cfg ctx s
  | DlOp.clearTag s => EVE_CoDl_clearTag cfg ctx s
  | DlOp.stencilMask m => EVE_CoDl_stencilMask cfg ctx m
  | DlOp.tagMask m => EVE_CoDl_tagMask cfg ctx m
  | DlOp.bitmapTransformA v => EVE_CoDl_bitmapTransformA cfg ctx v
  | DlOp.bitmapTransformA_ex p v => EVE_CoDl_bitmapTransformA_ex cfg ctx p v
  | DlOp.bitmapTransformB v => EVE_CoDl_bitmapTransformB cfg ctx v
  | DlOp.bitmapTransformB_ex p v => EVE_CoDl_bitmapTransformB_ex cfg ctx p v
  | DlOp.bitmapTransformC v => EVE_CoDl_bitmapTransformC cfg ctx v
  | DlOp.bitmapTransformD v => EVE_CoDl_bitmapTransformD cfg ctx v
  | DlOp.bitmapTransformD_ex p v => EVE_CoDl_bitmapTransformD_ex cfg ctx p v
  | DlOp.bitmapTransformE v => EVE_CoDl_bitmapTransformE cfg ctx v
  | DlOp.bitmapTransformE_ex p v => EVE_CoDl_bitmapTransformE_ex cfg ctx p v
  | DlOp.bitmapTransformF v => EVE_CoDl_bitmapTransformF cfg ctx v
  | DlOp.bitmapTransform_ex p a b c d e f => EVE_CoDl_bitmapTransform_ex cfg ctx p a b c d e f
  | DlOp.bitmapTransform_identity => EVE_CoDl_bitmapTransform_identity cfg ctx
  | DlOp.scissorXY x y => EVE_CoDl_scissorXY cfg ctx x y
  | DlOp.scissorSize w h => EVE_CoDl_scissorSize cfg ctx w h
  | DlOp.call d => EVE_CoDl_call cfg ctx d
  | DlOp.jump d => EVE_CoDl_jump cfg ctx d
  | DlOp.begin p => EVE_CoDl_begin cfg ctx p
  | DlOp.colorMask r g b a => EVE_CoDl_colorMask cfg ctx r g b a
  | DlOp.dlEnd => EVE_CoDl_end cfg ctx
  | DlOp.saveContext => EVE_CoDl_saveContext cfg ctx
  | DlOp.restoreContext => EVE_CoDl_restoreContext cfg ctx
  | DlOp.dlReturn => EVE_CoDl_return cfg ctx
  | DlOp.macroCmd m => EVE_CoDl_macro cfg ctx m
  | DlOp.clear c s t => EVE_CoDl_clear cfg ctx c s t
  | DlOp.vertexFormat f => EVE_CoDl_vertexFormat cfg ctx f
  | DlOp.paletteSource a => EVE_CoDl_paletteSource cfg ctx a
  | DlOp.vertexTranslateX x => EVE_CoDl_vertexTranslateX cfg ctx x
  | DlOp.vertexTranslateY y => EVE_CoDl_vertexTranslateY cfg ctx y
  | DlOp.nop => EVE_CoDl_nop cfg ctx
  | DlOp.vertex2f_4 x y => EVE_CoDl_vertex2f_4 cfg ctx x y
  | DlOp.vertex2f_2 x y => EVE_CoDl_vertex2f_2 cfg ctx x y
  | DlOp.vertex2f_0 x y => EVE_CoDl_vertex2f_0 cfg ctx x y

/-- `saveContext` and `restoreContext` are the stack operations. -/
def DlOp.isStackOp : DlOp → Bool
  | DlOp.saveContext => true
  | DlOp.restoreContext => true
  | _ => false

/-- Run a list of operations, threading the context and concatenating the
emitted words. -/
def runOps (cfg : EVE_Config) (ops : List DlOp) (ctx : EVE_HalContext) : DlResult :=
  match ops with
  | [] => (ctx, [])
  | op :: rest =>
    let r := runOp cfg op ctx
    let r2 := runOps cfg rest r.1
    (r2.1, r.2 ++ r2.2)

/-- A reset context (the state produced by `EVE_CoDlImpl_resetDlState`). -/
def ctx0 : EVE_HalContext :=
  { DlState := fun _ => resetDlStateDefault
    DlStateIndex := 0
    DlPrimitive := 0 }

/-- All switches on: the release configuration of the library. -/
def cfgOpt : EVE_Config :=
  { EVE_DL_OPTIMIZE := true, EVE_DL_CACHE_SCISSOR := true, EVE_DL_END_PRIMITIVE := true }

/-- All switches off. -/
def cfgPlain : EVE_Config :=
  { EVE_DL_OPTIMIZE := false, EVE_DL_CACHE_SCISSOR := false, EVE_DL_END_PRIMITIVE := false }

/-- Scissor caching on but the general state cache off. -/
def cfgScissorOnly : EVE_Config :=
  { EVE_DL_OPTIMIZE := false, EVE_DL_CACHE_SCISSOR := true, EVE_DL_END_PRIMITIVE := true }

/-- Reading the active snapshot after `setShadow` yields the written value. -/
theorem EVE_DL_STATE_setShadow (ctx : EVE_HalContext) (s : DlState) :
    EVE_DL_STATE (setShadow ctx s) = s := by
  simp [EVE_DL_STATE, setShadow]

/-- `setShadow` keeps the stack index. -/
theorem setShadow_index (ctx : EVE_HalContext) (s : DlState) :
    (setShadow ctx s).DlStateIndex = ctx.DlStateIndex := rfl

/-- `setShadow` keeps every slot other than the active one. -/
theorem setShadow_offslot (ctx : EVE_HalContext) (s : DlState) (i : Nat)
    (h : i ≠ ctx.DlStateIndex) : (setShadow ctx s).DlState i = ctx.DlState i := by
  simp [setShadow, h]

/-- A value below `2^24` is unchanged by the 24-bit color mask. -/
theorem and_mask24_eq (v : Nat) (hv : v < 2 ^ 24) : v &&& 0xFFFFFF = v := by
  have h1 : v &&& 0xFFFFFF = v % 16777216 := by
    simpa using Nat.and_pow_two_sub_one_eq_mod v 24
  have h2 : v % 16777216 = v := Nat.mod_eq_of_lt (by simpa using hv)
  rw [h1, h2]

/-- C1: with caching enabled, for each cacheable setter (color RGB, alpha,
bitmap handle, cell, point size, line width, vertex format, palette source),
two consecutive calls with the same value `v` (differing from the cached
value, as the claim's description of the first call presupposes) produce
exactly one emitted instruction: the first call emits one word and stores
`v` in the shadow state, and the second call emits nothing and changes no
state. -/
theorem C1_idempotent_suppression (cfg : EVE_Config) (hopt : cfg.EVE_DL_OPTIMIZE = true) :
    (∀ ctx (v : Nat), v < 2 ^ 24 → v ≠ (EVE_DL_STATE ctx).ColorRGB →
      (EVE_CoDl_colorRgb_ex cfg ctx v).2 = [DlWord.COLOR_RGB v] ∧
      (EVE_DL_STATE (EVE_CoDl_colorRgb_ex cfg ctx v).1).ColorRGB = v ∧
      EVE_CoDl_colorRgb_ex cfg (EVE_CoDl_colorRgb_ex cfg ctx v).1 v =
        ((EVE_CoDl_colorRgb_ex cfg ctx v).1, [])) ∧
    (∀ ctx (v : Nat), v ≠ (EVE_DL_STATE ctx).ColorA →
      (EVE_CoDl_colorA cfg ctx v).2 = [DlWord.COLOR_A v] ∧
      (EVE_DL_STATE (EVE_CoDl_colorA cfg ctx v).1).ColorA = v ∧
      EVE_CoDl_colorA cfg (EVE_CoDl_colorA cfg ctx v).1 v =
        ((EVE_CoDl_colorA cfg ctx v).1, [])) ∧
    (∀ ctx (v : Nat), v ≠ (EVE_DL_STATE ctx).Handle →
      (EVE_CoDl_bitmapHandle cfg ctx v).2 = [DlWord.BITMAP_HANDLE v] ∧
      (EVE_DL_STATE (EVE_CoDl_bitmapHandle cfg ctx v).1).Handle = v ∧
      EVE_CoDl_bitmapHandle cfg (EVE_CoDl_bitmapHandle cfg ctx v).1 v =
        ((EVE_CoDl_bitmapHandle cfg ctx v).1, [])) ∧
    (∀ ctx (v : Nat), v ≠ (EVE_DL_STATE ctx).Cell →
      (EVE_CoDl_cell cfg ctx v).2 = [DlWord.CELL v] ∧
      (EVE_DL_STATE (EVE_CoDl_cell cfg ctx v).1).Cell = v ∧
      EVE_CoDl_cell cfg (EVE_CoDl_cell cfg ctx v).1 v =
        ((EVE_CoDl_cell cfg ctx v).1, [])) ∧
    (∀ ctx (v : Int), v ≠ (EVE_DL_STATE ctx).PointSize →
      (EVE_CoDl_pointSize cfg ctx v).2 = [DlWord.POINT_SIZE v] ∧
      (EVE_DL_STATE (EVE_CoDl_pointSize cfg ctx v).1).PointSize = v ∧
      EVE_CoDl_pointSize cfg (EVE_CoDl_pointSize cfg ctx v).1 v =
        ((EVE_CoDl_pointSize cfg ctx v).1, [])) ∧
    (∀ ctx (v : Int), v ≠ (EVE_DL_STATE ctx).LineWidth →
      (EVE_CoDl_lineWidth cfg ctx v).2 = [DlWord.LINE_WIDTH v] ∧
      (EVE_DL_STATE (EVE_CoDl_lineWidth cfg ctx v).1).LineWidth = v ∧
      EVE_CoDl_lineWidth cfg (EVE_CoDl_lineWidth cfg ctx v).1 v =
        ((EVE_CoDl_lineWidth cfg ctx v).1, [])) ∧
    (∀ ctx (v : Nat), v ≠ (EVE_DL_STATE ctx).VertexFormat →
      (EVE_CoDl_vertexFormat cfg ctx v).2 = [DlWord.VERTEX_FORMAT v] ∧
      (EVE_DL_STATE (EVE_CoDl_vertexFormat cfg ctx v).1).VertexFormat = v ∧
      EVE_CoDl_vertexFormat cfg (EVE_CoDl_vertexFormat cfg ctx v).1 v =
        ((EVE_CoDl_vertexFormat cfg ctx v).1, [])) ∧
    (∀ ctx (v : Nat), v ≠ (EVE_DL_STATE ctx).PaletteSource →
      (EVE_CoDl_paletteSource cfg ctx v).2 = [DlWord.PALETTE_SOURCE v] ∧
      (EVE_DL_STATE (EVE_CoDl_paletteSource cfg ctx v).1).PaletteSource = v ∧
      EVE_CoDl_paletteSource cfg (EVE_CoDl_paletteSource cfg ctx v).1 v =
        ((EVE_CoDl_paletteSource cfg ctx v).1, [])) := by
  refine ⟨fun ctx v hv hne => ?_, fun ctx v hne => ?_, fun ctx v hne => ?_,
    fun ctx v hne => ?_, fun ctx v hne => ?_, fun ctx v hne => ?_,
    fun ctx v hne => ?_, fun ctx v hne => ?_⟩
  · simp [EVE_CoDl_colorRgb_ex, hopt, and_mask24_eq v hv, hne, EVE_DL_STATE_setShadow]
  · simp [EVE_CoDl_colorA, hopt, hne, EVE_DL_STATE_setShadow]
  · simp [EVE_CoDl_bitmapHandle, hopt, hne, EVE_DL_STATE_setShadow]
  · simp [EVE_CoDl_cell, hopt, hne, EVE_DL_STATE_setShadow]
  · simp [EVE_CoDl_pointSize, hopt, hne, EVE_DL_STATE_setShadow]
  · simp [EVE_CoDl_lineWidth, hopt, hne, EVE_DL_STATE_setShadow]
  · simp [EVE_CoDl_vertexFormat, hopt, hne, EVE_DL_STATE_setShadow]
  · simp [EVE_CoDl_paletteSource, hopt, hne, EVE_DL_STATE_setShadow]

/-- Witness for C1 at the reset context and concrete values. -/
theorem C1_idempotent_suppression_witness :
    (EVE_CoDl_colorA cfgOpt ctx0 7).2 = [DlWord.COLOR_A 7] ∧
    (EVE_DL_STATE (EVE_CoDl_colorA cfgOpt ctx0 7).1).ColorA = 7 ∧
    EVE_CoDl_colorA cfgOpt (EVE_CoDl_colorA cfgOpt ctx0 7).1 7 =
      ((EVE_CoDl_colorA cfgOpt ctx0 7).1, []) :=
  (C1_idempotent_suppression cfgOpt rfl).2.1 ctx0 7 (by decide)

/-- C2: with caching enabled, for each cacheable setter, `setX(v1)` then
`setX(v2)` with `v1 ≠ v2` (and `v1` differing from the cached value, so the
first call emits as the claim describes) emits exactly two instructions, one
per call, and afterwards the shadow field equals `v2`. -/
theorem C2_alternation_emits (cfg : EVE_Config) (hopt : cfg.EVE_DL_OPTIMIZE = true) :
    (∀ ctx (v1 v2 : Nat), v1 < 2 ^ 24 → v2 < 2 ^ 24 → v1 ≠ v2 →
      v1 ≠ (EVE_DL_STATE ctx).ColorRGB →
      (EVE_CoDl_colorRgb_ex cfg ctx v1).2 = [DlWord.COLOR_RGB v1] ∧
      (EVE_CoDl_colorRgb_ex cfg (EVE_CoDl_colorRgb_ex cfg ctx v1).1 v2).2 =
        [DlWord.COLOR_RGB v2] ∧
      (EVE_DL_STATE (EVE_CoDl_colorRgb_ex cfg
        (EVE_CoDl_colorRgb_ex cfg ctx v1).1 v2).1).ColorRGB = v2) ∧
    (∀ ctx (v1 v2 : Nat), v1 ≠ v2 → v1 ≠ (EVE_DL_STATE ctx).ColorA →
      (EVE_CoDl_colorA cfg ctx v1).2 = [DlWord.COLOR_A v1] ∧
      (EVE_CoDl_colorA cfg (EVE_CoDl_colorA cfg ctx v1).1 v2).2 = [DlWord.COLOR_A v2] ∧
      (EVE_DL_STATE (EVE_CoDl_colorA cfg (EVE_CoDl_colorA cfg ctx v1).1 v2).1).ColorA = v2) ∧
    (∀ ctx (v1 v2 : Nat), v1 ≠ v2 → v1 ≠ (EVE_DL_STATE ctx).Handle →
      (EVE_CoDl_bitmapHandle cfg ctx v1).2 = [DlWord.BITMAP_HANDLE v1] ∧
      (EVE_CoDl_bitmapHandle cfg (EVE_CoDl_bitmapHandle cfg ctx v1).1 v2).2 =
        [DlWord.BITMAP_HANDLE v2] ∧
      (EVE_DL_STATE (EVE_CoDl_bitmapHandle cfg
        (EVE_CoDl_bitmapHandle cfg ctx v1).1 v2).1).Handle = v2) ∧
    (∀ ctx (v1 v2 : Nat), v1 ≠ v2 → v1 ≠ (EVE_DL_STATE ctx).Cell →
      (EVE_CoDl_cell cfg ctx v1).2 = [DlWord.CELL v1] ∧
      (EVE_CoDl_cell cfg (EVE_CoDl_cell cfg ctx v1).1 v2).2 = [DlWord.CELL v2] ∧
      (EVE_DL_STATE (EVE_CoDl_cell cfg (EVE_CoDl_cell cfg ctx v1).1 v2).1).Cell = v2) ∧
    (∀ ctx (v1 v2 : Int), v1 ≠ v2 → v1 ≠ (EVE_DL_STATE ctx).PointSize →
      (EVE_CoDl_pointSize cfg ctx v1).2 = [DlWord.POINT_SIZE v1] ∧
      (EVE_CoDl_pointSize cfg (EVE_CoDl_pointSize cfg ctx v1).1 v2).2 =
        [DlWord.POINT_SIZE v2] ∧
      (EVE_DL_STATE (EVE_CoDl_pointSize cfg
        (EVE_CoDl_pointSize cfg ctx v1).1 v2).1).PointSize = v2) ∧
    (∀ ctx (v1 v2 : Int), v1 ≠ v2 → v1 ≠ (EVE_DL_STATE ctx).LineWidth →
      (EVE_CoDl_lineWidth cfg ctx v1).2 = [DlWord.LINE_WIDTH v1] ∧
      (EVE_CoDl_lineWidth cfg (EVE_CoDl_lineWidth cfg ctx v1).1 v2).2 =
        [DlWord.LINE_WIDTH v2] ∧
      (EVE_DL_STATE (EVE_CoDl_lineWidth cfg
        (EVE_CoDl_lineWidth cfg ctx v1).1 v2).1).LineWidth = v2) ∧
    (∀ ctx (v1 v2 : Nat), v1 ≠ v2 → v1 ≠ (EVE_DL_STATE ctx).VertexFormat →
      (EVE_CoDl_vertexFormat cfg ctx v1).2 = [DlWord.VERTEX_FORMAT v1] ∧
      (EVE_CoDl_vertexFormat cfg (EVE_CoDl_vertexFormat cfg ctx v1).1 v2).2 =
        [DlWord.VERTEX_FORMAT v2] ∧
      (EVE_DL_STATE (EVE_CoDl_vertexFormat cfg
        (EVE_CoDl_vertexFormat cfg ctx v1).1 v2).1).VertexFormat = v2) ∧
    (∀ ctx (v1 v2 : Nat), v1 ≠ v2 → v1 ≠ (EVE_DL_STATE ctx).PaletteSource →
      (EVE_CoDl_paletteSource cfg ctx v1).2 = [DlWord.PALETTE_SOURCE v1] ∧
      (EVE_CoDl_paletteSource cfg (EVE_CoDl_paletteSource cfg ctx v1).1 v2).2 =
        [DlWord.PALETTE_SOURCE v2] ∧
      (EVE_DL_STATE (EVE_CoDl_paletteSource cfg
        (EVE_CoDl_paletteSource cfg ctx v1).1 v2).1).PaletteSource = v2) := by
  refine ⟨fun ctx v1 v2 hv1 hv2 h12 hne => ?_, fun ctx v1 v2 h12 hne => ?_,
    fun ctx v1 v2 h12 hne => ?_, fun ctx v1 v2 h12 hne => ?_,
    fun ctx v1 v2 h12 hne => ?_, fun ctx v1 v2 h12 hne => ?_,
    fun ctx v1 v2 h12 hne => ?_, fun ctx v1 v2 h12 hne => ?_⟩
  · simp [EVE_CoDl_colorRgb_ex, hopt, and_mask24_eq v1 hv1, and_mask24_eq v2 hv2,
      hne, Ne.symm h12, EVE_DL_STATE_setShadow]
  · simp [EVE_CoDl_colorA, hopt, hne, Ne.symm h12, EVE_DL_STATE_setShadow]
  · simp [EVE_CoDl_bitmapHandle, hopt, hne, Ne.symm h12, EVE_DL_STATE_setShadow]
  · simp [EVE_CoDl_cell, hopt, hne, Ne.symm h12, EVE_DL_STATE_setShadow]
  · simp [EVE_CoDl_pointSize, hopt, hne, Ne.symm h12, EVE_DL_STATE_setShadow]
  · simp [EVE_CoDl_lineWidth, hopt, hne, Ne.symm h12, EVE_DL_STATE_setShadow]
  · simp [EVE_CoDl_vertexFormat, hopt, hne, Ne.symm h12, EVE_DL_STATE_setShadow]
  · simp [EVE_CoDl_paletteSource, hopt, hne, Ne.symm h12, EVE_DL_STATE_setShadow]

/-- Witness for C2 at the reset context and concrete values. -/
theorem C2_alternation_emits_witness :
    (EVE_CoDl_lineWidth cfgOpt ctx0 32).2 = [DlWord.LINE_WIDTH 32] ∧
    (EVE_CoDl_lineWidth cfgOpt (EVE_CoDl_lineWidth cfgOpt ctx0 32).1 48).2 =
      [DlWord.LINE_WIDTH 48] ∧
    (EVE_DL_STATE (EVE_CoDl_lineWidth cfgOpt
      (EVE_CoDl_lineWidth cfgOpt ctx0 32).1 48).1).LineWidth = 48 :=
  (C2_alternation_emits cfgOpt rfl).2.2.2.2.2.1 ctx0 32 48 (by decide) (by decide)

/-- C8: for every input and every configuration, `bitmapLayout` emits
exactly two words — the high-bits extension (`linestride >> 10`,
`height >> 9`) first, then the base `BITMAP_LAYOUT` word — and `bitmapSize`
emits exactly two words — the high-bits extension (`width >> 9`,
`height >> 9`) first, then the base `BITMAP_SIZE` word — unconditionally,
with no suppression and no state change. -/
theorem C8_bitmap_layout_size_pairs (cfg : EVE_Config) (ctx : EVE_HalContext) :
    (∀ format linestride height : Nat,
      EVE_CoDl_bitmapLayout cfg ctx format linestride height =
        (ctx, [DlWord.BITMAP_LAYOUT_H (linestride >>> 10) (height >>> 9),
               DlWord.BITMAP_LAYOUT format linestride height])) ∧
    (∀ filter wrapx wrapy width height : Nat,
      EVE_CoDl_bitmapSize cfg ctx filter wrapx wrapy width height =
        (ctx, [DlWord.BITMAP_SIZE_H (width >>> 9) (height >>> 9),
               DlWord.BITMAP_SIZE filter wrapx wrapy width height])) :=
  ⟨fun _ _ _ => rfl, fun _ _ _ _ _ => rfl⟩

/-- The strip primitives are never the effective current primitive. -/
theorem stripEffective_ne_strip (q : Nat) :
    stripEffective q ≠ LINE_STRIP ∧ stripEffective q ≠ EDGE_STRIP_R ∧
    stripEffective q ≠ EDGE_STRIP_L ∧ stripEffective q ≠ EDGE_STRIP_A ∧
    stripEffective q ≠ EDGE_STRIP_B := by
  unfold stripEffective
  split <;>
    simp_all [LINE_STRIP, EDGE_STRIP_R, EDGE_STRIP_L, EDGE_STRIP_A, EDGE_STRIP_B]

/-- C5: with caching enabled, `begin(type)` treats an active strip-family
primitive as `NONE` for the comparison (`stripEffective`), emits
`BEGIN(type)` and records `type` whenever `type` differs from the effective
current primitive, and skips otherwise; consequently `begin(LINE_STRIP)`
twice emits two `BEGIN` words (from any starting state), while `begin(p)`
twice for a non-strip `p` differing from the effective current primitive
emits exactly one. -/
theorem C5_begin_strip_restart (cfg : EVE_Config) (hopt : cfg.EVE_DL_OPTIMIZE = true) :
    (∀ ctx (p : Nat), p ≠ stripEffective ctx.DlPrimitive →
      EVE_CoDl_begin cfg ctx p = ({ ctx with DlPrimitive := p }, [DlWord.BEGIN p])) ∧
    (∀ ctx (p : Nat), p = stripEffective ctx.DlPrimitive →
      EVE_CoDl_begin cfg ctx p = (ctx, [])) ∧
    (∀ ctx,
      (EVE_CoDl_begin cfg ctx LINE_STRIP).2 = [DlWord.BEGIN LINE_STRIP] ∧
      (EVE_CoDl_begin cfg (EVE_CoDl_begin cfg ctx LINE_STRIP).1 LINE_STRIP).2 =
        [DlWord.BEGIN LINE_STRIP]) ∧
    (∀ ctx (p : Nat),
      p ≠ LINE_STRIP → p ≠ EDGE_STRIP_R → p ≠ EDGE_STRIP_L → p ≠ EDGE_STRIP_A →
      p ≠ EDGE_STRIP_B → p ≠ stripEffective ctx.DlPrimitive →
      (EVE_CoDl_begin cfg ctx p).2 = [DlWord.BEGIN p] ∧
      EVE_CoDl_begin cfg (EVE_CoDl_begin cfg ctx p).1 p =
        ((EVE_CoDl_begin cfg ctx p).1, [])) := by
  have hemit : ∀ ctx (p : Nat), p ≠ stripEffective ctx.DlPrimitive →
      EVE_CoDl_begin cfg ctx p = ({ ctx with DlPrimitive := p }, [DlWord.BEGIN p]) := by
    intro ctx p hne
    simp [EVE_CoDl_begin, hopt, hne]
  have hskip : ∀ ctx (p : Nat), p = stripEffective ctx.DlPrimitive →
      EVE_CoDl_begin cfg ctx p = (ctx, []) := by
    intro ctx p heq
    simp [EVE_CoDl_begin, hopt, heq]
  refine ⟨hemit, hskip, fun ctx => ?_, fun ctx p h1 h2 h3 h4 h5 hne => ?_⟩
  · have hne1 : LINE_STRIP ≠ stripEffective ctx.DlPrimitive :=
      fun h => (stripEffective_ne_strip ctx.DlPrimitive).1 h.symm
    rw [hemit ctx LINE_STRIP hne1]
    have hne2 : LINE_STRIP ≠
        stripEffective ({ ctx with DlPrimitive := LINE_STRIP } : EVE_HalContext).DlPrimitive :=
      fun h => (stripEffective_ne_strip LINE_STRIP).1 h.symm
    exact ⟨rfl, by rw [hemit _ LINE_STRIP hne2]⟩
  · rw [hemit ctx p hne]
    have heffp : stripEffective p = p := by
      unfold stripEffective
      split <;> simp_all
    refine ⟨rfl, hskip _ p ?_⟩
    simpa using heffp.symm

/-- Witness for C5 at the reset context: a double `begin(LINE_STRIP)`
emits twice and a double `begin(POINTS)` (a non-strip primitive, opcode 2)
emits once. -/
theorem C5_begin_strip_restart_witness :
    ((EVE_CoDl_begin cfgOpt ctx0 LINE_STRIP).2 = [DlWord.BEGIN LINE_STRIP] ∧
      (EVE_CoDl_begin cfgOpt (EVE_CoDl_begin cfgOpt ctx0 LINE_STRIP).1 LINE_STRIP).2 =
        [DlWord.BEGIN LINE_STRIP]) ∧
    ((EVE_CoDl_begin cfgOpt ctx0 2).2 = [DlWord.BEGIN 2] ∧
      EVE_CoDl_begin cfgOpt (EVE_CoDl_begin cfgOpt ctx0 2).1 2 =
        ((EVE_CoDl_begin cfgOpt ctx0 2).1, [])) :=
  ⟨(C5_begin_strip_restart cfgOpt rfl).2.2.1 ctx0,
   (C5_begin_strip_restart cfgOpt rfl).2.2.2 ctx0 2 (by decide) (by decide) (by decide)
     (by decide) (by decide) (by decide)⟩

/-- Counterexample for C6: with the state cache disabled and explicit END
disabled, `end()` still emits an `END` word even though the active
primitive is `NONE` — contradicting the claim that `END` is emitted only
if the active primitive is not `NONE` and only if the build configuration
enables explicit END emission. -/
theorem C6_end_counterexample :
    cfgPlain.EVE_DL_END_PRIMITIVE = false ∧ cfgPlain.EVE_DL_OPTIMIZE = false ∧
    ctx0.DlPrimitive = 0 ∧
    (EVE_CoDl_end cfgPlain ctx0).2 = [DlWord.END] := by
  refine ⟨rfl, rfl, rfl, ?_⟩
  rfl

/-- C6 as amended: with the state cache enabled, `end()` emits `END` iff
the active primitive is not `NONE` and explicit END emission is enabled,
and then resets the primitive state to `NONE`; with explicit END disabled
it is a complete no-op (the primitive state is left unchanged, not reset);
with the state cache disabled, `end()` always emits `END` unconditionally
and never touches the primitive state. -/
theorem C6_end_behavior (cfg : EVE_Config) (ctx : EVE_HalContext) :
    (cfg.EVE_DL_OPTIMIZE = true → cfg.EVE_DL_END_PRIMITIVE = true →
      (ctx.DlPrimitive ≠ 0 →
        EVE_CoDl_end cfg ctx = ({ ctx with DlPrimitive := 0 }, [DlWord.END])) ∧
      (ctx.DlPrimitive = 0 → EVE_CoDl_end cfg ctx = (ctx, []))) ∧
    (cfg.EVE_DL_OPTIMIZE = true → cfg.EVE_DL_END_PRIMITIVE = false →
      EVE_CoDl_end cfg ctx = (ctx, [])) ∧
    (cfg.EVE_DL_OPTIMIZE = false →
      EVE_CoDl_end cfg ctx = (ctx, [DlWord.END])) := by
  refine ⟨fun hopt hend => ⟨fun hp => ?_, fun hp => ?_⟩, fun hopt hend => ?_,
    fun hopt => ?_⟩
  · simp [EVE_CoDl_end, hopt, hend, hp]
  · simp [EVE_CoDl_end, hopt, hend, hp]
  · simp [EVE_CoDl_end, hopt, hend]
  · simp [EVE_CoDl_end, hopt]

/-- Witness for C6's amended theorem: concrete instances of all three
configuration cases. -/
theorem C6_end_behavior_witness :
    EVE_CoDl_end cfgOpt { ctx0 with DlPrimitive := 2 } =
      ({ ({ ctx0 with DlPrimitive := 2 } : EVE_HalContext) with DlPrimitive := 0 },
        [DlWord.END]) ∧
    EVE_CoDl_end cfgOpt ctx0 = (ctx0, []) ∧
    EVE_CoDl_end cfgPlain ctx0 = (ctx0, [DlWord.END]) :=
  ⟨((C6_end_behavior cfgOpt { ctx0 with DlPrimitive := 2 }).1 rfl rfl).1 (by decide),
   ((C6_end_behavior cfgOpt ctx0).1 rfl rfl).2 rfl,
   (C6_end_behavior cfgPlain ctx0).2.2 rfl⟩

/-- The six identity-valued instructions emitted by
`bitmapTransform_identity` when it is not skipped (A=256, B=0, C=0, D=0,
E=256, F=0, in that order). -/
def identityWords : List DlWord :=
  [DlWord.BITMAP_TRANSFORM_A_EXT false 256, DlWord.BITMAP_TRANSFORM_B_EXT false 0,
   DlWord.BITMAP_TRANSFORM_C 0, DlWord.BITMAP_TRANSFORM_D_EXT false 0,
   DlWord.BITMAP_TRANSFORM_E_EXT false 256, DlWord.BITMAP_TRANSFORM_F 0]

/-- C7: with caching enabled, `bitmapTransform_identity` is a no-op when
the transform is already recorded as identity (`BitmapTransform = false`) —
in particular immediately after `resetDlState`, which starts the state as
identity; when the transform is recorded as set (which every coefficient
setter does), it emits exactly the six identity instructions in order
A=256, B=0, C=0, D=0, E=256, F=0 and restores the identity flag. -/
theorem C7_identity_matrix_skip (cfg : EVE_Config) (hopt : cfg.EVE_DL_OPTIMIZE = true) :
    (∀ ctx, (EVE_DL_STATE ctx).BitmapTransform = false →
      EVE_CoDl_bitmapTransform_identity cfg ctx = (ctx, [])) ∧
    (∀ ctx, EVE_CoDl_bitmapTransform_identity cfg (EVE_CoDlImpl_resetDlState ctx) =
      (EVE_CoDlImpl_resetDlState ctx, [])) ∧
    (∀ ctx, (EVE_DL_STATE ctx).BitmapTransform = true →
      (EVE_CoDl_bitmapTransform_identity cfg ctx).2 = identityWords ∧
      (EVE_DL_STATE (EVE_CoDl_bitmapTransform_identity cfg ctx).1).BitmapTransform = false) ∧
    (∀ ctx v, (EVE_DL_STATE (EVE_CoDl_bitmapTransformA cfg ctx v).1).BitmapTransform = true) ∧
    (∀ ctx p v,
      (EVE_DL_STATE (EVE_CoDl_bitmapTransformA_ex cfg ctx p v).1).BitmapTransform = true) ∧
    (∀ ctx v, (EVE_DL_STATE (EVE_CoDl_bitmapTransformB cfg ctx v).1).BitmapTransform = true) ∧
    (∀ ctx p v,
      (EVE_DL_STATE (EVE_CoDl_bitmapTransformB_ex cfg ctx p v).1).BitmapTransform = true) ∧
    (∀ ctx v, (EVE_DL_STATE (EVE_CoDl_bitmapTransformC cfg ctx v).1).BitmapTransform = true) ∧
    (∀ ctx v, (EVE_DL_STATE (EVE_CoDl_bitmapTransformD cfg ctx v).1).BitmapTransform = true) ∧
    (∀ ctx p v,
      (EVE_DL_STATE (EVE_CoDl_bitmapTransformD_ex cfg ctx p v).1).BitmapTransform = true) ∧
    (∀ ctx v, (EVE_DL_STATE (EVE_CoDl_bitmapTransformE cfg ctx v).1).BitmapTransform = true) ∧
    (∀ ctx p v,
      (EVE_DL_STATE (EVE_CoDl_bitmapTransformE_ex cfg ctx p v).1).BitmapTransform = true) ∧
    (∀ ctx v, (EVE_DL_STATE (EVE_CoDl_bitmapTransformF cfg ctx v).1).BitmapTransform = true) := by
  have hskip : ∀ ctx, (EVE_DL_STATE ctx).BitmapTransform = false →
      EVE_CoDl_bitmapTransform_identity cfg ctx = (ctx, []) := by
    intro ctx h
    simp [EVE_CoDl_bitmapTransform_identity, hopt, h]
  refine ⟨hskip, fun ctx => ?_, fun ctx h => ?_, ?_, ?_, ?_, ?_, ?_, ?_, ?_, ?_, ?_, ?_⟩
  · exact hskip _ rfl
  · constructor
    · simp [EVE_CoDl_bitmapTransform_identity, hopt, h, bitmapTransformIdentityBody, dlSeq,
        EVE_CoDl_bitmapTransformA_ex, EVE_CoDl_bitmapTransformB_ex, EVE_CoDl_bitmapTransformC,
        EVE_CoDl_bitmapTransformD_ex, EVE_CoDl_bitmapTransformE_ex, EVE_CoDl_bitmapTransformF,
        identityWords]
    · simp [EVE_CoDl_bitmapTransform_identity, hopt, h, EVE_DL_STATE_setShadow]
  all_goals
    intro ctx
    first
      | intro p v
        simp [EVE_CoDl_bitmapTransformA_ex, EVE_CoDl_bitmapTransformB_ex,
          EVE_CoDl_bitmapTransformD_ex, EVE_CoDl_bitmapTransformE_ex,
          hopt, EVE_DL_STATE_setShadow]
      | intro v
        simp [EVE_CoDl_bitmapTransformA, EVE_CoDl_bitmapTransformB,
          EVE_CoDl_bitmapTransformC, EVE_CoDl_bitmapTransformD,
          EVE_CoDl_bitmapTransformE, EVE_CoDl_bitmapTransformF,
          hopt, EVE_DL_STATE_setShadow]

/-- Witness for C7: after reset the identity call is a no-op; after setting
coefficient C it emits the six identity instructions and clears the flag. -/
theorem C7_identity_matrix_skip_witness :
    EVE_CoDl_bitmapTransform_identity cfgOpt (EVE_CoDlImpl_resetDlState ctx0) =
      (EVE_CoDlImpl_resetDlState ctx0, []) ∧
    ((EVE_CoDl_bitmapTransform_identity cfgOpt
        (EVE_CoDl_bitmapTransformC cfgOpt ctx0 99).1).2 = identityWords ∧
      (EVE_DL_STATE (EVE_CoDl_bitmapTransform_identity cfgOpt
        (EVE_CoDl_bitmapTransformC cfgOpt ctx0 99).1).1).BitmapTransform = false) :=
  ⟨(C7_identity_matrix_skip cfgOpt rfl).2.1 ctx0,
   (C7_identity_matrix_skip cfgOpt rfl).2.2.1 (EVE_CoDl_bitmapTransformC cfgOpt ctx0 99).1
     ((C7_identity_matrix_skip cfgOpt rfl).2.2.2.2.2.2.2.1 ctx0 99)⟩

/-- Counterexample for C9: with `CACHE_SCISSOR` enabled but the general
cache switch (`OPTIMIZE`) disabled, a `scissorXY` call whose arguments equal
the cached scissor position is NOT suppressed: it still emits its word, so
scissor suppression is not independent of the general cache switch. -/
theorem C9_scissor_counterexample :
    cfgScissorOnly.EVE_DL_CACHE_SCISSOR = true ∧
    cfgScissorOnly.EVE_DL_OPTIMIZE = false ∧
    (EVE_DL_STATE ctx0).ScissorX = 0 ∧ (EVE_DL_STATE ctx0).ScissorY = 0 ∧
    (EVE_CoDl_scissorXY cfgScissorOnly ctx0 0 0).2 = [DlWord.SCISSOR_XY 0 0] := by
  refine ⟨rfl, rfl, rfl, rfl, ?_⟩
  rfl

/-- C9 as amended: the scissor setters suppress a call matching the cached
rectangle only when BOTH `CACHE_SCISSOR` and the general cache switch
(`OPTIMIZE`) are enabled; whenever either switch is off they always emit,
while `CACHE_SCISSOR` alone still maintains the cached rectangle. -/
theorem C9_scissor_suppression (cfg : EVE_Config) (ctx : EVE_HalContext) :
    (∀ x y : Nat, cfg.EVE_DL_OPTIMIZE = true → cfg.EVE_DL_CACHE_SCISSOR = true →
      (EVE_DL_STATE ctx).ScissorX = x → (EVE_DL_STATE ctx).ScissorY = y →
      EVE_CoDl_scissorXY cfg ctx x y = (ctx, [])) ∧
    (∀ x y : Nat, cfg.EVE_DL_OPTIMIZE = false ∨ cfg.EVE_DL_CACHE_SCISSOR = false →
      (EVE_CoDl_scissorXY cfg ctx x y).2 = [DlWord.SCISSOR_XY x y]) ∧
    (∀ x y : Nat, cfg.EVE_DL_CACHE_SCISSOR = true →
      (EVE_DL_STATE (EVE_CoDl_scissorXY cfg ctx x y).1).ScissorX = x ∧
      (EVE_DL_STATE (EVE_CoDl_scissorXY cfg ctx x y).1).ScissorY = y) ∧
    (∀ w h : Nat, cfg.EVE_DL_OPTIMIZE = true → cfg.EVE_DL_CACHE_SCISSOR = true →
      (EVE_DL_STATE ctx).ScissorWidth = w → (EVE_DL_STATE ctx).ScissorHeight = h →
      EVE_CoDl_scissorSize cfg ctx w h = (ctx, [])) ∧
    (∀ w h : Nat, cfg.EVE_DL_OPTIMIZE = false ∨ cfg.EVE_DL_CACHE_SCISSOR = false →
      (EVE_CoDl_scissorSize cfg ctx w h).2 = [DlWord.SCISSOR_SIZE w h]) ∧
    (∀ w h : Nat, cfg.EVE_DL_CACHE_SCISSOR = true →
      (EVE_DL_STATE (EVE_CoDl_scissorSize cfg ctx w h).1).ScissorWidth = w ∧
      (EVE_DL_STATE (EVE_CoDl_scissorSize cfg ctx w h).1).ScissorHeight = h) := by
  refine ⟨fun x y hopt hcs hx hy => ?_, fun x y hoff => ?_, fun x y hcs => ?_,
    fun w h hopt hcs hw hh => ?_, fun w h hoff => ?_, fun w h hcs => ?_⟩
  · simp [EVE_CoDl_scissorXY, hopt, hcs, hx, hy]
  · rcases hoff with hoff | hoff <;> simp [EVE_CoDl_scissorXY, hoff]
  · by_cases hsup : (cfg.EVE_DL_OPTIMIZE && cfg.EVE_DL_CACHE_SCISSOR) = true ∧
        (EVE_DL_STATE ctx).ScissorX = x ∧ (EVE_DL_STATE ctx).ScissorY = y
    · obtain ⟨hb, hx, hy⟩ := hsup
      simp [EVE_CoDl_scissorXY, hb, hx, hy]
    · simp only [EVE_CoDl_scissorXY]
      split
      · rename_i hcond
        simp only [Bool.and_eq_true, Bool.not_eq_true', decide_eq_false_iff_not, not_or,
          Decidable.not_not] at hcond
        obtain ⟨⟨ho, hc⟩, hx2, hy2⟩ := hcond
        exact absurd ⟨by simp [ho, hc], hx2, hy2⟩ hsup
      · simp [hcs, EVE_DL_STATE_setShadow]
  · simp [EVE_CoDl_scissorSize, hopt, hcs, hw, hh]
  · rcases hoff with hoff | hoff <;> simp [EVE_CoDl_scissorSize, hoff]
  · by_cases hsup : (cfg.EVE_DL_OPTIMIZE && cfg.EVE_DL_CACHE_SCISSOR) = true ∧
        (EVE_DL_STATE ctx).ScissorWidth = w ∧ (EVE_DL_STATE ctx).ScissorHeight = h
    · obtain ⟨hb, hw, hh⟩ := hsup
      simp [EVE_CoDl_scissorSize, hb, hw, hh]
    · simp only [EVE_CoDl_scissorSize]
      split
      · rename_i hcond
        simp only [Bool.and_eq_true, Bool.not_eq_true', decide_eq_false_iff_not, not_or,
          Decidable.not_not] at hcond
        obtain ⟨⟨ho, hc⟩, hw2, hh2⟩ := hcond
        exact absurd ⟨by simp [ho, hc], hw2, hh2⟩ hsup
      · simp [hcs, EVE_DL_STATE_setShadow]

/-- Witness for C9's amended theorem: suppression with both switches on,
emission with the general cache off. -/
theorem C9_scissor_suppression_witness :
    EVE_CoDl_scissorXY cfgOpt ctx0 0 0 = (ctx0, []) ∧
    (EVE_CoDl_scissorXY cfgScissorOnly ctx0 3 4).2 = [DlWord.SCISSOR_XY 3 4] :=
  ⟨(C9_scissor_suppression cfgOpt ctx0).1 0 0 rfl rfl rfl rfl,
   (C9_scissor_suppression cfgScissorOnly ctx0).2.1 3 4 (Or.inl rfl)⟩

/-- Counterexample for C4: the coordinate `-16385` has magnitude exceeding
the documented minimum constant (`-16385 < EVE_VERTEX2F_MIN = -16384`), yet
`vertex2f_4(-16385, 0)` does NOT fall back: it sets vertex format 4 and
emits the vertex with coordinates unmodified — the code only tests the
`EVE_VERTEX2F_MAX` side. -/
theorem C4_vertex_fallback_counterexample :
    (-16385 : Int) < EVE_VERTEX2F_MIN ∧
    (EVE_CoDl_vertex2f_4 cfgPlain ctx0 (-16385) 0).2 =
      [DlWord.VERTEX_FORMAT 4, DlWord.VERTEX2F (-16385) 0] := by
  refine ⟨by decide, ?_⟩
  rfl

/-- C4 as amended: `vertex2f_4` falls back exactly when a coordinate
EXCEEDS `EVE_VERTEX2F_MAX = 16383` (coordinates below `EVE_VERTEX2F_MIN`
do not trigger the fallback): in the fallback it sets vertex format 3 via
the cacheable setter and emits the vertex with both coordinates
arithmetically right-shifted by 1; otherwise it sets vertex format 4 and
emits the vertex unmodified.  In particular `vertex2f_4(20000, 0)` yields a
format-3 setter then a vertex at `(10000, 0)`, and `vertex2f_4(100, 100)`
yields a format-4 setter then a vertex at `(100, 100)`. -/
theorem C4_vertex_fallback (cfg : EVE_Config) (ctx : EVE_HalContext) :
    (∀ x y : Int, x > EVE_VERTEX2F_MAX ∨ y > EVE_VERTEX2F_MAX →
      (EVE_CoDl_vertex2f_4 cfg ctx x y).2 =
        (EVE_CoDl_vertexFormat cfg ctx 3).2 ++ [DlWord.VERTEX2F (asr1 x) (asr1 y)] ∧
      (EVE_CoDl_vertex2f_4 cfg ctx x y).1 = (EVE_CoDl_vertexFormat cfg ctx 3).1) ∧
    (∀ x y : Int, x ≤ EVE_VERTEX2F_MAX → y ≤ EVE_VERTEX2F_MAX →
      (EVE_CoDl_vertex2f_4 cfg ctx x y).2 =
        (EVE_CoDl_vertexFormat cfg ctx 4).2 ++ [DlWord.VERTEX2F x y] ∧
      (EVE_CoDl_vertex2f_4 cfg ctx x y).1 = (EVE_CoDl_vertexFormat cfg ctx 4).1) ∧
    ((EVE_DL_STATE ctx).VertexFormat ≠ 3 →
      (EVE_CoDl_vertex2f_4 cfg ctx 20000 0).2 =
        [DlWord.VERTEX_FORMAT 3, DlWord.VERTEX2F 10000 0]) ∧
    ((EVE_DL_STATE ctx).VertexFormat ≠ 4 →
      (EVE_CoDl_vertex2f_4 cfg ctx 100 100).2 =
        [DlWord.VERTEX_FORMAT 4, DlWord.VERTEX2F 100 100]) := by
  have hfmt : ∀ f : Nat, (EVE_DL_STATE ctx).VertexFormat ≠ f →
      (EVE_CoDl_vertexFormat cfg ctx f).2 = [DlWord.VERTEX_FORMAT f] := by
    intro f hne
    unfold EVE_CoDl_vertexFormat
    by_cases hopt : cfg.EVE_DL_OPTIMIZE
    · simp [hopt, Ne.symm hne]
    · simp [hopt]
  refine ⟨fun x y hgt => ?_, fun x y hx hy => ?_, fun hne => ?_, fun hne => ?_⟩
  · rw [EVE_CoDl_vertex2f_4, if_pos hgt]
    simp [dlSeq, EVE_CoDl_vertex2f]
  · have hn : ¬(x > EVE_VERTEX2F_MAX ∨ y > EVE_VERTEX2F_MAX) := by
      push_neg
      exact ⟨hx, hy⟩
    rw [EVE_CoDl_vertex2f_4, if_neg hn]
    simp [dlSeq, EVE_CoDl_vertex2f]
  · have hgt : (20000 : Int) > EVE_VERTEX2F_MAX ∨ (0 : Int) > EVE_VERTEX2F_MAX :=
      Or.inl (by decide)
    rw [EVE_CoDl_vertex2f_4, if_pos hgt]
    simp [dlSeq, EVE_CoDl_vertex2f, hfmt 3 hne]
    decide
  · have hn : ¬((100 : Int) > EVE_VERTEX2F_MAX ∨ (100 : Int) > EVE_VERTEX2F_MAX) := by
      decide
    rw [EVE_CoDl_vertex2f_4, if_neg hn]
    simp [dlSeq, EVE_CoDl_vertex2f, hfmt 4 hne]

/-- Witness for C4's amended theorem: both concrete examples evaluated from
suitable concrete states. -/
theorem C4_vertex_fallback_witness :
    (EVE_CoDl_vertex2f_4 cfgOpt ctx0 20000 0).2 =
      [DlWord.VERTEX_FORMAT 3, DlWord.VERTEX2F 10000 0] ∧
    (EVE_CoDl_vertex2f_4 cfgOpt
        (setShadow ctx0 { resetDlStateDefault with VertexFormat := 0 }) 100 100).2 =
      [DlWord.VERTEX_FORMAT 4, DlWord.VERTEX2F 100 100] :=
  ⟨(C4_vertex_fallback cfgOpt ctx0).2.2.1 (by decide),
   (C4_vertex_fallback cfgOpt
      (setShadow ctx0 { resetDlStateDefault with VertexFormat := 0 })).2.2.2
     (by simp [EVE_DL_STATE_setShadow])⟩

/-- `ctx'` differs from `ctx` at most in the active snapshot slot and the
primitive field: the stack index and every other slot are untouched. -/
def ShadowFrame (ctx ctx' : EVE_HalContext) : Prop :=
  ctx'.DlStateIndex = ctx.DlStateIndex ∧
  ∀ i, i ≠ ctx.DlStateIndex → ctx'.DlState i = ctx.DlState i

/-- `ShadowFrame` is reflexive. -/
theorem ShadowFrame.rfl' (ctx : EVE_HalContext) : ShadowFrame ctx ctx :=
  ⟨rfl, fun _ _ => rfl⟩

/-- `ShadowFrame` is transitive. -/
theorem ShadowFrame.trans' {a b c : EVE_HalContext}
    (h1 : ShadowFrame a b) (h2 : ShadowFrame b c) : ShadowFrame a c := by
  refine ⟨h2.1.trans h1.1, fun i hi => ?_⟩
  rw [h2.2 i (by rw [h1.1]; exact hi), h1.2 i hi]

/-- Writing the active snapshot touches no other slot and not the index. -/
theorem shadowFrame_setShadow (ctx : EVE_HalContext) (s : DlState) :
    ShadowFrame ctx (setShadow ctx s) :=
  ⟨rfl, fun i hi => by simp [setShadow, hi]⟩

/-- Changing the primitive field touches no slot and not the index. -/
theorem shadowFrame_prim (ctx : EVE_HalContext) (p : Nat) :
    ShadowFrame ctx { ctx with DlPrimitive := p } :=
  ⟨rfl, fun _ _ => rfl⟩

/-- Frame rule for sequencing. -/
theorem shadowFrame_dlSeq {ctx : EVE_HalContext} {r : DlResult}
    {f : EVE_HalContext → DlResult} (h1 : ShadowFrame ctx r.1)
    (h2 : ∀ c, ShadowFrame c (f c).1) : ShadowFrame ctx (dlSeq r f).1 :=
  h1.trans' (h2 r.1)

/-- Every cacheable setter only writes the active snapshot. -/
theorem shadowFrame_setters (cfg : EVE_Config) (ctx : EVE_HalContext) :
    (∀ c, ShadowFrame ctx (EVE_CoDl_colorRgb_ex cfg ctx c).1) ∧
    (∀ a, ShadowFrame ctx (EVE_CoDl_colorA cfg ctx a).1) ∧
    (∀ h, ShadowFrame ctx (EVE_CoDl_bitmapHandle cfg ctx h).1) ∧
    (∀ c, ShadowFrame ctx (EVE_CoDl_cell cfg ctx c).1) ∧
    (∀ s, ShadowFrame ctx (EVE_CoDl_pointSize cfg ctx s).1) ∧
    (∀ w, ShadowFrame ctx (EVE_CoDl_lineWidth cfg ctx w).1) ∧
    (∀ f, ShadowFrame ctx (EVE_CoDl_vertexFormat cfg ctx f).1) ∧
    (∀ a, ShadowFrame ctx (EVE_CoDl_paletteSource cfg ctx a).1) ∧
    (∀ x y, ShadowFrame ctx (EVE_CoDl_scissorXY cfg ctx x y).1) ∧
    (∀ w h, ShadowFrame ctx (EVE_CoDl_scissorSize cfg ctx w h).1) := by
  refine ⟨fun c => ?_, fun a => ?_, fun h => ?_, fun c => ?_, fun s => ?_,
    fun w => ?_, fun f => ?_, fun a => ?_, fun x y => ?_, fun w h => ?_⟩ <;>
    (first
      | unfold EVE_CoDl_colorRgb_ex
      | unfold EVE_CoDl_colorA
      | unfold EVE_CoDl_bitmapHandle
      | unfold EVE_CoDl_cell
      | unfold EVE_CoDl_pointSize
      | unfold EVE_CoDl_lineWidth
      | unfold EVE_CoDl_vertexFormat
      | unfold EVE_CoDl_paletteSource
      | unfold EVE_CoDl_scissorXY
      | unfold EVE_CoDl_scissorSize) <;>
    (dsimp only
     repeat' split
     all_goals first | exact shadowFrame_setShadow .. | exact ShadowFrame.rfl' ..)

/-- Every bitmap-transform coefficient setter only writes the active
snapshot. -/
theorem shadowFrame_transform_setters (cfg : EVE_Config) (ctx : EVE_HalContext) :
    (∀ v, ShadowFrame ctx (EVE_CoDl_bitmapTransformA cfg ctx v).1) ∧
    (∀ p v, ShadowFrame ctx (EVE_CoDl_bitmapTransformA_ex cfg ctx p v).1) ∧
    (∀ v, ShadowFrame ctx (EVE_CoDl_bitmapTransformB cfg ctx v).1) ∧
    (∀ p v, ShadowFrame ctx (EVE_CoDl_bitmapTransformB_ex cfg ctx p v).1) ∧
    (∀ v, ShadowFrame ctx (EVE_CoDl_bitmapTransformC cfg ctx v).1) ∧
    (∀ v, ShadowFrame ctx (EVE_CoDl_bitmapTransformD cfg ctx v).1) ∧
    (∀ p v, ShadowFrame ctx (EVE_CoDl_bitmapTransformD_ex cfg ctx p v).1) ∧
    (∀ v, ShadowFrame ctx (EVE_CoDl_bitmapTransformE cfg ctx v).1) ∧
    (∀ p v, ShadowFrame ctx (EVE_CoDl_bitmapTransformE_ex cfg ctx p v).1) ∧
    (∀ v, ShadowFrame ctx (EVE_CoDl_bitmapTransformF cfg ctx v).1) := by
  refine ⟨fun v => ?_, fun p v => ?_, fun v => ?_, fun p v => ?_, fun v => ?_,
    fun v => ?_, fun p v => ?_, fun v => ?_, fun p v => ?_, fun v => ?_⟩ <;>
    (first
      | unfold EVE_CoDl_bitmapTransformA_ex
      | unfold EVE_CoDl_bitmapTransformA
      | unfold EVE_CoDl_bitmapTransformB_ex
      | unfold EVE_CoDl_bitmapTransformB
      | unfold EVE_CoDl_bitmapTransformC
      | unfold EVE_CoDl_bitmapTransformD_ex
      | unfold EVE_CoDl_bitmapTransformD
      | unfold EVE_CoDl_bitmapTransformE_ex
      | unfold EVE_CoDl_bitmapTransformE
      | unfold EVE_CoDl_bitmapTransformF) <;>
    (dsimp only
     repeat' split
     all_goals first | exact shadowFrame_setShadow .. | exact ShadowFrame.rfl' ..)

/-- The six-call identity body only writes the active snapshot. -/
theorem shadowFrame_identityBody (cfg : EVE_Config) (ctx : EVE_HalContext) :
    ShadowFrame ctx (bitmapTransformIdentityBody cfg ctx).1 := by
  unfold bitmapTransformIdentityBody
  refine shadowFrame_dlSeq ((shadowFrame_transform_setters cfg ctx).2.1 false 256) fun c1 =>
    shadowFrame_dlSeq ((shadowFrame_transform_setters cfg c1).2.2.2.1 false 0) fun c2 =>
    shadowFrame_dlSeq ((shadowFrame_transform_setters cfg c2).2.2.2.2.1 0) fun c3 =>
    shadowFrame_dlSeq ((shadowFrame_transform_setters cfg c3).2.2.2.2.2.2.1 false 0) fun c4 =>
    shadowFrame_dlSeq ((shadowFrame_transform_setters cfg c4).2.2.2.2.2.2.2.2.1 false 256)
      fun c5 => (shadowFrame_transform_setters cfg c5).2.2.2.2.2.2.2.2.2 0

/-- `bitmapTransform_identity` only writes the active snapshot. -/
theorem shadowFrame_identity (cfg : EVE_Config) (ctx : EVE_HalContext) :
    ShadowFrame ctx (EVE_CoDl_bitmapTransform_identity cfg ctx).1 := by
  unfold EVE_CoDl_bitmapTransform_identity
  dsimp only
  repeat' split
  · exact (shadowFrame_identityBody cfg ctx).trans'
      (shadowFrame_setShadow (bitmapTransformIdentityBody cfg ctx).1 _)
  · exact ShadowFrame.rfl' ctx
  · exact shadowFrame_identityBody cfg ctx

/-- `bitmapTransform_ex` only writes the active snapshot. -/
theorem shadowFrame_transform_ex (cfg : EVE_Config) (ctx : EVE_HalContext)
    (p : Bool) (a b : Nat) (c : Nat) (d e : Nat) (f : Nat) :
    ShadowFrame ctx (EVE_CoDl_bitmapTransform_ex cfg ctx p a b c d e f).1 := by
  unfold EVE_CoDl_bitmapTransform_ex
  dsimp only
  have hchain : ShadowFrame ctx
      (dlSeq (EVE_CoDl_bitmapTransformA_ex cfg ctx p a) fun c1 =>
       dlSeq (EVE_CoDl_bitmapTransformB_ex cfg c1 p b) fun c2 =>
       dlSeq (EVE_CoDl_bitmapTransformC cfg c2 c) fun c3 =>
       dlSeq (EVE_CoDl_bitmapTransformD_ex cfg c3 p d) fun c4 =>
       dlSeq (EVE_CoDl_bitmapTransformE_ex cfg c4 p e) fun c5 =>
       EVE_CoDl_bitmapTransformF cfg c5 f).1 := by
    refine shadowFrame_dlSeq ((shadowFrame_transform_setters cfg ctx).2.1 p a) fun c1 =>
      shadowFrame_dlSeq ((shadowFrame_transform_setters cfg c1).2.2.2.1 p b) fun c2 =>
      shadowFrame_dlSeq ((shadowFrame_transform_setters cfg c2).2.2.2.2.1 c) fun c3 =>
      shadowFrame_dlSeq ((shadowFrame_transform_setters cfg c3).2.2.2.2.2.2.1 p d) fun c4 =>
      shadowFrame_dlSeq ((shadowFrame_transform_setters cfg c4).2.2.2.2.2.2.2.2.1 p e)
        fun c5 => (shadowFrame_transform_setters cfg c5).2.2.2.2.2.2.2.2.2 f
  split
  · exact hchain.trans' (shadowFrame_setShadow _ _)
  · exact hchain

/-- Every non-stack operation preserves the stack index and every snapshot
slot other than the active one. -/
theorem runOp_frame (cfg : EVE_Config) (op : DlOp) (h : op.isStackOp = false)
    (ctx : EVE_HalContext) : ShadowFrame ctx (runOp cfg op ctx).1 := by
  cases op <;> simp only [runOp] <;>
    first
      | exact ShadowFrame.rfl' ctx
      | exact (shadowFrame_setters cfg ctx).1 ..
      | exact (shadowFrame_setters cfg ctx).2.1 ..
      | exact (shadowFrame_setters cfg ctx).2.2.1 ..
      | exact (shadowFrame_setters cfg ctx).2.2.2.1 ..
      | exact (shadowFrame_setters cfg ctx).2.2.2.2.1 ..
      | exact (shadowFrame_setters cfg ctx).2.2.2.2.2.1 ..
      | exact (shadowFrame_setters cfg ctx).2.2.2.2.2.2.1 ..
      | exact (shadowFrame_setters cfg ctx).2.2.2.2.2.2.2.1 ..
      | exact (shadowFrame_setters cfg ctx).2.2.2.2.2.2.2.2.1 ..
      | exact (shadowFrame_setters cfg ctx).2.2.2.2.2.2.2.2.2 ..
      | exact (shadowFrame_transform_setters cfg ctx).1 ..
      | exact (shadowFrame_transform_setters cfg ctx).2.1 ..
      | exact (shadowFrame_transform_setters cfg ctx).2.2.1 ..
      | exact (shadowFrame_transform_setters cfg ctx).2.2.2.1 ..
      | exact (shadowFrame_transform_setters cfg ctx).2.2.2.2.1 ..
      | exact (shadowFrame_transform_setters cfg ctx).2.2.2.2.2.1 ..
      | exact (shadowFrame_transform_setters cfg ctx).2.2.2.2.2.2.1 ..
      | exact (shadowFrame_transform_setters cfg ctx).2.2.2.2.2.2.2.1 ..
      | exact (shadowFrame_transform_setters cfg ctx).2.2.2.2.2.2.2.2.1 ..
      | exact (shadowFrame_transform_setters cfg ctx).2.2.2.2.2.2.2.2.2 ..
      | exact shadowFrame_identity cfg ctx
      | exact shadowFrame_transform_ex cfg ctx ..
      | simp [DlOp.isStackOp] at h
      | skip
  case colorArgb_ex c =>
    exact shadowFrame_dlSeq ((shadowFrame_setters cfg ctx).1 c) fun c1 =>
      (shadowFrame_setters cfg c1).2.1 _
  case begin p =>
    unfold EVE_CoDl_begin
    dsimp only
    repeat' split
    all_goals first | exact shadowFrame_prim .. | exact ShadowFrame.rfl' ..
  case dlEnd =>
    unfold EVE_CoDl_end
    try dsimp only
    repeat' split
    all_goals first | exact shadowFrame_prim .. | exact ShadowFrame.rfl' ..
  case vertex2f_4 x y =>
    unfold EVE_CoDl_vertex2f_4
    split <;>
      exact shadowFrame_dlSeq ((shadowFrame_setters cfg ctx).2.2.2.2.2.2.1 _) fun c =>
        ShadowFrame.rfl' c

/-- `runOps` on `[]`. -/
theorem runOps_nil (cfg : EVE_Config) (ctx : EVE_HalContext) :
    runOps cfg [] ctx = (ctx, []) := rfl

/-- Context after a cons is the context after the tail from the head's
result. -/
theorem runOps_cons_fst (cfg : EVE_Config) (op : DlOp) (rest : List DlOp)
    (ctx : EVE_HalContext) :
    (runOps cfg (op :: rest) ctx).1 = (runOps cfg rest (runOp cfg op ctx).1).1 := rfl

/-- Context after an append is the second run from the first run's result. -/
theorem runOps_append_fst (cfg : EVE_Config) (a b : List DlOp) (ctx : EVE_HalContext) :
    (runOps cfg (a ++ b) ctx).1 = (runOps cfg b (runOps cfg a ctx).1).1 := by
  induction a generalizing ctx with
  | nil => rfl
  | cons op rest ih =>
    rw [List.cons_append, runOps_cons_fst, runOps_cons_fst, ih]

/-- A run of non-stack operations only writes the active snapshot. -/
theorem runOps_frame (cfg : EVE_Config) (ops : List DlOp)
    (h : ∀ op ∈ ops, op.isStackOp = false) (ctx : EVE_HalContext) :
    ShadowFrame ctx (runOps cfg ops ctx).1 := by
  induction ops generalizing ctx with
  | nil => exact ShadowFrame.rfl' ctx
  | cons op rest ih =>
    rw [runOps_cons_fst]
    exact (runOp_frame cfg op (h op (List.mem_cons_self op rest)) ctx).trans'
      (ih (fun o ho => h o (List.mem_cons_of_mem op ho)) _)

/-- Masking with `EVE_DL_STATE_STACK_MASK` is reduction mod the stack
size. -/
theorem and_stack_mask_eq_mod (a : Nat) :
    a &&& EVE_DL_STATE_STACK_MASK = a % EVE_DL_STATE_STACK_SIZE := by
  simpa [EVE_DL_STATE_STACK_MASK, EVE_DL_STATE_STACK_SIZE] using
    Nat.and_pow_two_sub_one_eq_mod a 2

/-- Effect of `saveContext` with the shadow stack enabled: one word
emitted, index advanced mod the capacity, the pre-save snapshot copied into
the new slot, every other slot untouched. -/
theorem saveContext_effect (cfg : EVE_Config)
    (hstk : (cfg.EVE_DL_OPTIMIZE || cfg.EVE_DL_CACHE_SCISSOR) = true)
    (ctx : EVE_HalContext) :
    (EVE_CoDl_saveContext cfg ctx).1.DlStateIndex =
      (ctx.DlStateIndex + 1) % EVE_DL_STATE_STACK_SIZE ∧
    (∀ i, i ≠ (ctx.DlStateIndex + 1) % EVE_DL_STATE_STACK_SIZE →
      (EVE_CoDl_saveContext cfg ctx).1.DlState i = ctx.DlState i) ∧
    (EVE_CoDl_saveContext cfg ctx).1.DlState
      ((ctx.DlStateIndex + 1) % EVE_DL_STATE_STACK_SIZE) =
      ctx.DlState ctx.DlStateIndex ∧
    (EVE_CoDl_saveContext cfg ctx).2 = [DlWord.SAVE_CONTEXT] := by
  unfold EVE_CoDl_saveContext
  rw [if_pos hstk]
  refine ⟨by simp [and_stack_mask_eq_mod], fun i hi => ?_, ?_, rfl⟩
  · simp only []
    rw [and_stack_mask_eq_mod] at *
    simp [hi]
  · simp only []
    rw [and_stack_mask_eq_mod]
    simp

/-- Effect of `restoreContext` with the shadow stack enabled: one word
emitted, index stepped back mod the capacity, no slot written. -/
theorem restoreContext_effect (cfg : EVE_Config)
    (hstk : (cfg.EVE_DL_OPTIMIZE || cfg.EVE_DL_CACHE_SCISSOR) = true)
    (ctx : EVE_HalContext) :
    (EVE_CoDl_restoreContext cfg ctx).1.DlStateIndex =
      (ctx.DlStateIndex + EVE_DL_STATE_STACK_MASK) % EVE_DL_STATE_STACK_SIZE ∧
    (EVE_CoDl_restoreContext cfg ctx).1.DlState = ctx.DlState ∧
    (EVE_CoDl_restoreContext cfg ctx).2 = [DlWord.RESTORE_CONTEXT] := by
  unfold EVE_CoDl_restoreContext
  rw [if_pos hstk]
  exact ⟨by simp [and_stack_mask_eq_mod], rfl, rfl⟩

/-- `saveContext` N times with arbitrary non-stack operations after each
save. -/
def savePhase : List (List DlOp) → List DlOp
  | [] => []
  | g :: gs => (DlOp.saveContext :: g) ++ savePhase gs

/-- `restoreContext` N times with arbitrary non-stack operations before
each restore. -/
def restorePhase : List (List DlOp) → List DlOp
  | [] => []
  | g :: gs => (g ++ [DlOp.restoreContext]) ++ restorePhase gs

/-- Running a save phase with the shadow stack enabled advances the index
by the number of saves (mod capacity) and leaves every slot outside the
visited window `(start+1 .. start+N) mod capacity` untouched. -/
theorem savePhase_effect (cfg : EVE_Config)
    (hstk : (cfg.EVE_DL_OPTIMIZE || cfg.EVE_DL_CACHE_SCISSOR) = true)
    (gs : List (List DlOp)) :
    ∀ ctx : EVE_HalContext, ctx.DlStateIndex < EVE_DL_STATE_STACK_SIZE →
    (∀ g ∈ gs, ∀ op ∈ g, op.isStackOp = false) →
    (runOps cfg (savePhase gs) ctx).1.DlStateIndex =
      (ctx.DlStateIndex + gs.length) % EVE_DL_STATE_STACK_SIZE ∧
    ∀ i, i < EVE_DL_STATE_STACK_SIZE →
      (∀ k, 1 ≤ k → k ≤ gs.length →
        i ≠ (ctx.DlStateIndex + k) % EVE_DL_STATE_STACK_SIZE) →
      (runOps cfg (savePhase gs) ctx).1.DlState i = ctx.DlState i := by
  induction gs with
  | nil =>
    intro ctx hidx _
    refine ⟨?_, fun i _ _ => rfl⟩
    simpa [savePhase, runOps_nil] using (Nat.mod_eq_of_lt hidx).symm
  | cons g gs ih =>
    intro ctx hidx hgaps
    have hsave := saveContext_effect cfg hstk ctx
    set ctx1 := (EVE_CoDl_saveContext cfg ctx).1 with hctx1
    have hidx1 : ctx1.DlStateIndex = (ctx.DlStateIndex + 1) % EVE_DL_STATE_STACK_SIZE :=
      hsave.1
    have hidx1lt : ctx1.DlStateIndex < EVE_DL_STATE_STACK_SIZE := by
      rw [hidx1]
      exact Nat.mod_lt _ (by decide)
    have hgapframe : ShadowFrame ctx1 (runOps cfg g ctx1).1 :=
      runOps_frame cfg g (hgaps g (List.mem_cons_self g gs)) ctx1
    set ctx2 := (runOps cfg g ctx1).1 with hctx2
    have hidx2 : ctx2.DlStateIndex = ctx1.DlStateIndex := hgapframe.1
    have hidx2lt : ctx2.DlStateIndex < EVE_DL_STATE_STACK_SIZE := hidx2 ▸ hidx1lt
    have hrest := ih ctx2 hidx2lt (fun g2 hg2 => hgaps g2 (List.mem_cons_of_mem g hg2))
    have hrun : (runOps cfg (savePhase (g :: gs)) ctx).1 =
        (runOps cfg (savePhase gs) ctx2).1 := by
      show (runOps cfg ((DlOp.saveContext :: g) ++ savePhase gs) ctx).1 = _
      rw [runOps_append_fst, runOps_cons_fst]
      rfl
    constructor
    · rw [hrun, hrest.1, hidx2, hidx1, Nat.mod_add_mod, List.length_cons]
      simp only [EVE_DL_STATE_STACK_SIZE]
      omega
    · intro i hi havoid
      have h1 : i ≠ (ctx.DlStateIndex + 1) % EVE_DL_STATE_STACK_SIZE :=
        havoid 1 (by omega) (by simp)
      have hslots3 : (runOps cfg (savePhase gs) ctx2).1.DlState i = ctx2.DlState i := by
        refine hrest.2 i hi fun k hk1 hk2 => ?_
        rw [hidx2, hidx1, Nat.mod_add_mod]
        have := havoid (k + 1) (by omega) (by simpa using Nat.add_le_add_right hk2 1)
        rw [show ctx.DlStateIndex + 1 + k = ctx.DlStateIndex + (k + 1) by omega]
        exact this
      have hslots2 : ctx2.DlState i = ctx1.DlState i := by
        refine hgapframe.2 i ?_
        rw [hidx1]
        exact h1
      have hslots1 : ctx1.DlState i = ctx.DlState i := hsave.2.1 i h1
      rw [hrun, hslots3, hslots2, hslots1]

/-- Running a restore phase with the shadow stack enabled steps the index
back by the number of restores (mod capacity) and leaves every slot outside
the visited window `(start, start-1, ..., start-(N-1)) mod capacity`
untouched. -/
theorem restorePhase_effect (cfg : EVE_Config)
    (hstk : (cfg.EVE_DL_OPTIMIZE || cfg.EVE_DL_CACHE_SCISSOR) = true)
    (gs : List (List DlOp)) :
    ∀ ctx : EVE_HalContext, ctx.DlStateIndex < EVE_DL_STATE_STACK_SIZE →
    (∀ g ∈ gs, ∀ op ∈ g, op.isStackOp = false) →
    (runOps cfg (restorePhase gs) ctx).1.DlStateIndex =
      (ctx.DlStateIndex + EVE_DL_STATE_STACK_MASK * gs.length) %
        EVE_DL_STATE_STACK_SIZE ∧
    ∀ i, i < EVE_DL_STATE_STACK_SIZE →
      (∀ k, k < gs.length →
        i ≠ (ctx.DlStateIndex + EVE_DL_STATE_STACK_MASK * k) %
          EVE_DL_STATE_STACK_SIZE) →
      (runOps cfg (restorePhase gs) ctx).1.DlState i = ctx.DlState i := by
  induction gs with
  | nil =>
    intro ctx hidx _
    refine ⟨?_, fun i _ _ => rfl⟩
    simpa [restorePhase, runOps_nil] using (Nat.mod_eq_of_lt hidx).symm
  | cons g gs ih =>
    intro ctx hidx hgaps
    have hgapframe : ShadowFrame ctx (runOps cfg g ctx).1 :=
      runOps_frame cfg g (hgaps g (List.mem_cons_self g gs)) ctx
    set ctx1 := (runOps cfg g ctx).1 with hctx1
    have hidx1 : ctx1.DlStateIndex = ctx.DlStateIndex := hgapframe.1
    have hrestore := restoreContext_effect cfg hstk ctx1
    set ctx2 := (EVE_CoDl_restoreContext cfg ctx1).1 with hctx2
    have hidx2 : ctx2.DlStateIndex =
        (ctx.DlStateIndex + EVE_DL_STATE_STACK_MASK) % EVE_DL_STATE_STACK_SIZE := by
      rw [hrestore.1, hidx1]
    have hidx2lt : ctx2.DlStateIndex < EVE_DL_STATE_STACK_SIZE := by
      rw [hidx2]
      exact Nat.mod_lt _ (by decide)
    have hrest := ih ctx2 hidx2lt (fun g2 hg2 => hgaps g2 (List.mem_cons_of_mem g hg2))
    have hrun : (runOps cfg (restorePhase (g :: gs)) ctx).1 =
        (runOps cfg (restorePhase gs) ctx2).1 := by
      show (runOps cfg ((g ++ [DlOp.restoreContext]) ++ restorePhase gs) ctx).1 = _
      rw [runOps_append_fst, runOps_append_fst, runOps_cons_fst]
      rfl
    constructor
    · rw [hrun, hrest.1, hidx2, Nat.mod_add_mod, List.length_cons]
      simp only [EVE_DL_STATE_STACK_SIZE, EVE_DL_STATE_STACK_MASK]
      omega
    · intro i hi havoid
      have h0 : i ≠ ctx.DlStateIndex := by
        have := havoid 0 (by simp)
        simpa [Nat.mod_eq_of_lt hidx] using this
      have hslots3 : (runOps cfg (restorePhase gs) ctx2).1.DlState i = ctx2.DlState i := by
        refine hrest.2 i hi fun k hk => ?_
        rw [hidx2, Nat.mod_add_mod]
        have := havoid (k + 1) (by simp only [List.length_cons]; omega)
        have harith : ctx.DlStateIndex + EVE_DL_STATE_STACK_MASK * (k + 1) =
            ctx.DlStateIndex + EVE_DL_STATE_STACK_MASK + EVE_DL_STATE_STACK_MASK * k := by
          ring
        rwa [harith] at this
      have hslots2 : ctx2.DlState i = ctx1.DlState i := by
        rw [hctx2, hrestore.2.1]
      have hslots1 : ctx1.DlState i = ctx.DlState i := hgapframe.2 i h0
      rw [hrun, hslots3, hslots2, hslots1]

/-- With both cache switches off, no operation writes any snapshot slot or
moves the stack index (state tracking is compiled out). -/
theorem runOp_nocache (cfg : EVE_Config) (ho : cfg.EVE_DL_OPTIMIZE = false)
    (hc : cfg.EVE_DL_CACHE_SCISSOR = false) (op : DlOp) (ctx : EVE_HalContext) :
    (runOp cfg op ctx).1.DlState = ctx.DlState ∧
    (runOp cfg op ctx).1.DlStateIndex = ctx.DlStateIndex := by
  cases op <;>
    simp [runOp, EVE_CoDl_display, EVE_CoDl_vertex2f, EVE_CoDl_vertex2ii,
      EVE_CoDl_bitmapSource, EVE_CoDl_bitmapSource_ex, EVE_CoDl_clearColorRgb_ex,
      EVE_CoDl_clearColorRgb, EVE_CoDl_clearColorA, EVE_CoDl_clearColorArgb_ex,
      EVE_CoDl_tag, EVE_CoDl_colorRgb_ex, EVE_CoDl_colorRgb, EVE_CoDl_colorA,
      EVE_CoDl_colorArgb_ex, EVE_CoDl_bitmapHandle, EVE_CoDl_cell,
      EVE_CoDl_bitmapLayout, EVE_CoDl_bitmapSize, EVE_CoDl_alphaFunc,
      EVE_CoDl_stencilFunc, EVE_CoDl_blendFunc, EVE_CoDl_blendFunc_default,
      EVE_CoDl_stencilOp, EVE_CoDl_pointSize, EVE_CoDl_lineWidth,
      EVE_CoDl_clearStencil, EVE_CoDl_clearTag, EVE_CoDl_stencilMask,
      EVE_CoDl_tagMask, EVE_CoDl_bitmapTransformA, EVE_CoDl_bitmapTransformA_ex,
      EVE_CoDl_bitmapTransformB, EVE_CoDl_bitmapTransformB_ex,
      EVE_CoDl_bitmapTransformC, EVE_CoDl_bitmapTransformD,
      EVE_CoDl_bitmapTransformD_ex, EVE_CoDl_bitmapTransformE,
      EVE_CoDl_bitmapTransformE_ex, EVE_CoDl_bitmapTransformF,
      EVE_CoDl_bitmapTransform_ex, EVE_CoDl_bitmapTransform_identity,
      bitmapTransformIdentityBody, EVE_CoDl_scissorXY, EVE_CoDl_scissorSize,
      EVE_CoDl_call, EVE_CoDl_jump, EVE_CoDl_begin, EVE_CoDl_colorMask,
      EVE_CoDl_end, EVE_CoDl_saveContext, EVE_CoDl_restoreContext,
      EVE_CoDl_return, EVE_CoDl_macro, EVE_CoDl_clear, EVE_CoDl_vertexFormat,
      EVE_CoDl_paletteSource, EVE_CoDl_vertexTranslateX, EVE_CoDl_vertexTranslateY,
      EVE_CoDl_nop, EVE_CoDl_vertex2f_4, EVE_CoDl_vertex2f_2, EVE_CoDl_vertex2f_0,
      dlSeq, ho, hc]
  split <;> exact ⟨rfl, rfl⟩

/-- With both cache switches off, no operation sequence changes the
snapshot array or the stack index. -/
theorem runOps_nocache (cfg : EVE_Config) (ho : cfg.EVE_DL_OPTIMIZE = false)
    (hc : cfg.EVE_DL_CACHE_SCISSOR = false) (ops : List DlOp) :
    ∀ ctx : EVE_HalContext,
    (runOps cfg ops ctx).1.DlState = ctx.DlState ∧
    (runOps cfg ops ctx).1.DlStateIndex = ctx.DlStateIndex := by
  induction ops with
  | nil => exact fun ctx => ⟨rfl, rfl⟩
  | cons op rest ih =>
    intro ctx
    rw [runOps_cons_fst]
    have hop := runOp_nocache cfg ho hc op ctx
    have hrest := ih (runOp cfg op ctx).1
    exact ⟨hrest.1.trans hop.1, hrest.2.trans hop.2⟩

/-- Counterexample for C3: with N equal to the full stack capacity (N = 4 ≤
capacity) and a single setter interleaved after the first save, saving N
times then restoring N times does NOT bring the active shadow state back:
the fourth save wraps the ring and overwrites the slot holding the pre-save
snapshot, so the restored state carries the setter's value. -/
theorem C3_stack_roundtrip_counterexample :
    EVE_DL_STATE ctx0 ≠
      EVE_DL_STATE (runOps cfgOpt
        [DlOp.saveContext, DlOp.colorA 7, DlOp.saveContext, DlOp.saveContext,
         DlOp.saveContext, DlOp.restoreContext, DlOp.restoreContext,
         DlOp.restoreContext, DlOp.restoreContext] ctx0).1 ∧
    ([DlOp.saveContext, DlOp.colorA 7, DlOp.saveContext, DlOp.saveContext,
      DlOp.saveContext, DlOp.restoreContext, DlOp.restoreContext,
      DlOp.restoreContext, DlOp.restoreContext].countP
        (fun op => op.isStackOp) = 2 * EVE_DL_STATE_STACK_SIZE) := by
  constructor
  · decide
  · decide

/-- C3 as amended: for every N up to capacity MINUS ONE (the full-capacity
case fails, see the counterexample), and every interleaving of non-stack
operations between the saves and restores, `saveContext` N times then
`restoreContext` N times returns the stack index to its pre-save value and
leaves the active shadow state equal to its value immediately before the
first save; each save and each restore also unconditionally emits exactly
one word (`SAVE_CONTEXT` resp. `RESTORE_CONTEXT`). -/
theorem C3_stack_roundtrip (cfg : EVE_Config) (gsS gsR : List (List DlOp))
    (hlen : gsR.length = gsS.length)
    (hN : gsS.length ≤ EVE_DL_STATE_STACK_SIZE - 1)
    (hS : ∀ g ∈ gsS, ∀ op ∈ g, op.isStackOp = false)
    (hR : ∀ g ∈ gsR, ∀ op ∈ g, op.isStackOp = false)
    (ctx : EVE_HalContext) (hidx : ctx.DlStateIndex < EVE_DL_STATE_STACK_SIZE) :
    (runOps cfg (savePhase gsS ++ restorePhase gsR) ctx).1.DlStateIndex =
      ctx.DlStateIndex ∧
    EVE_DL_STATE (runOps cfg (savePhase gsS ++ restorePhase gsR) ctx).1 =
      EVE_DL_STATE ctx ∧
    (∀ c, (EVE_CoDl_saveContext cfg c).2 = [DlWord.SAVE_CONTEXT]) ∧
    (∀ c, (EVE_CoDl_restoreContext cfg c).2 = [DlWord.RESTORE_CONTEXT]) := by
  have hemit : (∀ c, (EVE_CoDl_saveContext cfg c).2 = [DlWord.SAVE_CONTEXT]) ∧
      ∀ c, (EVE_CoDl_restoreContext cfg c).2 = [DlWord.RESTORE_CONTEXT] := by
    constructor <;> intro c <;>
      first
        | (unfold EVE_CoDl_saveContext
           split <;> rfl)
        | (unfold EVE_CoDl_restoreContext
           split <;> rfl)
  by_cases hstk : (cfg.EVE_DL_OPTIMIZE || cfg.EVE_DL_CACHE_SCISSOR) = true
  · have hsave := savePhase_effect cfg hstk gsS ctx hidx hS
    have hidxS : (runOps cfg (savePhase gsS) ctx).1.DlStateIndex =
        (ctx.DlStateIndex + gsS.length) % EVE_DL_STATE_STACK_SIZE := hsave.1
    have hidxSlt : (runOps cfg (savePhase gsS) ctx).1.DlStateIndex <
        EVE_DL_STATE_STACK_SIZE := by
      rw [hidxS]
      exact Nat.mod_lt _ (by decide)
    have hrest := restorePhase_effect cfg hstk gsR (runOps cfg (savePhase gsS) ctx).1
      hidxSlt hR
    have happ : (runOps cfg (savePhase gsS ++ restorePhase gsR) ctx).1 =
        (runOps cfg (restorePhase gsR) (runOps cfg (savePhase gsS) ctx).1).1 :=
      runOps_append_fst cfg _ _ ctx
    have hidxF : (runOps cfg (savePhase gsS ++ restorePhase gsR) ctx).1.DlStateIndex =
        ctx.DlStateIndex := by
      rw [happ, hrest.1, hidxS, hlen, Nat.mod_add_mod]
      simp only [EVE_DL_STATE_STACK_SIZE, EVE_DL_STATE_STACK_MASK] at *
      omega
    have hslotS : (runOps cfg (savePhase gsS) ctx).1.DlState ctx.DlStateIndex =
        ctx.DlState ctx.DlStateIndex := by
      refine hsave.2 ctx.DlStateIndex hidx fun k hk1 hk2 => ?_
      simp only [EVE_DL_STATE_STACK_SIZE, EVE_DL_STATE_STACK_MASK] at *
      omega
    have hslotF : (runOps cfg (savePhase gsS ++ restorePhase gsR) ctx).1.DlState
        ctx.DlStateIndex = ctx.DlState ctx.DlStateIndex := by
      rw [happ]
      rw [hrest.2 ctx.DlStateIndex hidx fun k hk => ?_]
      · exact hslotS
      · rw [hidxS, Nat.mod_add_mod]
        simp only [EVE_DL_STATE_STACK_SIZE, EVE_DL_STATE_STACK_MASK] at *
        omega
    refine ⟨hidxF, ?_, hemit.1, hemit.2⟩
    unfold EVE_DL_STATE
    rw [hidxF, hslotF]
  · have hboth : cfg.EVE_DL_OPTIMIZE = false ∧ cfg.EVE_DL_CACHE_SCISSOR = false := by
      constructor <;> by_contra hx <;>
        simp [Bool.not_eq_false] at hx <;> simp [hx] at hstk
    have hall := runOps_nocache cfg hboth.1 hboth.2
      (savePhase gsS ++ restorePhase gsR) ctx
    refine ⟨hall.2, ?_, hemit.1, hemit.2⟩
    unfold EVE_DL_STATE
    rw [hall.1, hall.2]

/-- Witness for C3's amended theorem: two saves (with a color change after
the first save) then two restores from the reset context restore the reset
shadow state. -/
theorem C3_stack_roundtrip_witness :
    (runOps cfgOpt (savePhase [[DlOp.colorA 7], []] ++ restorePhase [[], []])
      ctx0).1.DlStateIndex = ctx0.DlStateIndex ∧
    EVE_DL_STATE (runOps cfgOpt
      (savePhase [[DlOp.colorA 7], []] ++ restorePhase [[], []]) ctx0).1 =
      EVE_DL_STATE ctx0 ∧
    (∀ c, (EVE_CoDl_saveContext cfgOpt c).2 = [DlWord.SAVE_CONTEXT]) ∧
    (∀ c, (EVE_CoDl_restoreContext cfgOpt c).2 = [DlWord.RESTORE_CONTEXT]) :=
  C3_stack_roundtrip cfgOpt [[DlOp.colorA 7], []] [[], []] (by decide) (by decide)
    (by decide) (by decide) ctx0 (by decide)

/-- C10: the stack index always stays inside `[0, capacity-1]` — every
single operation and every operation sequence preserves the bound, so the
snapshot-array access at the index stays in bounds even on over-push and
over-pop; `saveContext` and `restoreContext` are the only operations that
change the index, and with the shadow stack enabled they move it by
`(i+1) & mask` resp. `(i-1) & mask`. -/
theorem C10_stack_index_invariant :
    (∀ (cfg : EVE_Config) (op : DlOp) (ctx : EVE_HalContext),
      ctx.DlStateIndex < EVE_DL_STATE_STACK_SIZE →
      (runOp cfg op ctx).1.DlStateIndex < EVE_DL_STATE_STACK_SIZE) ∧
    (∀ (cfg : EVE_Config) (ops : List DlOp) (ctx : EVE_HalContext),
      ctx.DlStateIndex < EVE_DL_STATE_STACK_SIZE →
      (runOps cfg ops ctx).1.DlStateIndex < EVE_DL_STATE_STACK_SIZE) ∧
    (∀ (cfg : EVE_Config) (op : DlOp) (ctx : EVE_HalContext),
      op.isStackOp = false →
      (runOp cfg op ctx).1.DlStateIndex = ctx.DlStateIndex) ∧
    (∀ (cfg : EVE_Config) (ctx : EVE_HalContext),
      (cfg.EVE_DL_OPTIMIZE || cfg.EVE_DL_CACHE_SCISSOR) = true →
      (EVE_CoDl_saveContext cfg ctx).1.DlStateIndex =
        (ctx.DlStateIndex + 1) &&& EVE_DL_STATE_STACK_MASK ∧
      (EVE_CoDl_restoreContext cfg ctx).1.DlStateIndex =
        (ctx.DlStateIndex + EVE_DL_STATE_STACK_MASK) &&& EVE_DL_STATE_STACK_MASK) := by
  have hop : ∀ (cfg : EVE_Config) (op : DlOp) (ctx : EVE_HalContext),
      ctx.DlStateIndex < EVE_DL_STATE_STACK_SIZE →
      (runOp cfg op ctx).1.DlStateIndex < EVE_DL_STATE_STACK_SIZE := by
    intro cfg op ctx h
    by_cases hf : op.isStackOp = false
    · rw [(runOp_frame cfg op hf ctx).1]
      exact h
    · simp only [Bool.not_eq_false] at hf
      by_cases hstk : (cfg.EVE_DL_OPTIMIZE || cfg.EVE_DL_CACHE_SCISSOR) = true
      · cases op <;> simp [DlOp.isStackOp] at hf
        · rw [show (runOp cfg DlOp.saveContext ctx) = EVE_CoDl_saveContext cfg ctx
              from rfl, (saveContext_effect cfg hstk ctx).1]
          exact Nat.mod_lt _ (by decide)
        · rw [show (runOp cfg DlOp.restoreContext ctx) = EVE_CoDl_restoreContext cfg ctx
              from rfl, (restoreContext_effect cfg hstk ctx).1]
          exact Nat.mod_lt _ (by decide)
      · have hboth : cfg.EVE_DL_OPTIMIZE = false ∧ cfg.EVE_DL_CACHE_SCISSOR = false := by
          constructor <;> by_contra hx <;>
            simp [Bool.not_eq_false] at hx <;> simp [hx] at hstk
        rw [(runOp_nocache cfg hboth.1 hboth.2 op ctx).2]
        exact h
  refine ⟨hop, fun cfg ops => ?_, fun cfg op ctx hf => (runOp_frame cfg op hf ctx).1,
    fun cfg ctx hstk => ?_⟩
  · induction ops with
    | nil => exact fun ctx h => h
    | cons op rest ih =>
      intro ctx h
      rw [runOps_cons_fst]
      exact ih _ (hop cfg op ctx h)
  · constructor
    · rw [(saveContext_effect cfg hstk ctx).1, and_stack_mask_eq_mod]
    · rw [(restoreContext_effect cfg hstk ctx).1, and_stack_mask_eq_mod]

/-- Witness for C10: concrete over-pop (restore at index 0 wraps to 3) and
over-push sequences keep the index in bounds. -/
theorem C10_stack_index_invariant_witness :
    (runOps cfgOpt [DlOp.restoreContext, DlOp.saveContext, DlOp.saveContext,
      DlOp.saveContext, DlOp.saveContext, DlOp.saveContext]
      ctx0).1.DlStateIndex < EVE_DL_STATE_STACK_SIZE ∧
    (runOp cfgOpt (DlOp.colorA 7) ctx0).1.DlStateIndex = ctx0.DlStateIndex ∧
    (EVE_CoDl_saveContext cfgOpt ctx0).1.DlStateIndex =
      (ctx0.DlStateIndex + 1) &&& EVE_DL_STATE_STACK_MASK ∧
    (EVE_CoDl_restoreContext cfgOpt ctx0).1.DlStateIndex =
      (ctx0.DlStateIndex + EVE_DL_STATE_STACK_MASK) &&& EVE_DL_STATE_STACK_MASK :=
  ⟨C10_stack_index_invariant.2.1 cfgOpt _ ctx0 (by decide),
   C10_stack_index_invariant.2.2.1 cfgOpt (DlOp.colorA 7) ctx0 (by decide),
   (C10_stack_index_invariant.2.2.2 cfgOpt ctx0 rfl).1,
   (C10_stack_index_invariant.2.2.2 cfgOpt ctx0 rfl).2⟩

end EveCoDl
